import Mathlib

/-!
Verification development for the adstest stress/counters library.

The definitions below are a shallow embedding of the TypeScript sources
(src/stress.ts, src/counters.ts, src/utils.ts).  JavaScript numbers are
modelled as rationals, with NaN represented explicitly where the code can
produce it.  Cooperative concurrency is modelled by making the shared
timeout flag an explicit trace parameter: each iteration loop consults the
flag at exactly the program point where the source reads it, and the trace
records what value the flag had at that moment.  Thrown JavaScript values
are modelled by an explicit datatype, and code paths that throw are
modelled with Except.
-/

namespace Adstest

/-- A JavaScript number: either a finite numeric value or NaN.
none stands for NaN (and, when it arises from reading a missing array
index into an arithmetic operation, for the NaN that undefined coerces
to). -/
abbrev JNum := Option ℚ

/-- JavaScript addition of two numbers: NaN is absorbing. -/
def jsAdd (a b : JNum) : JNum :=
  match a, b with
  | some x, some y => some (x + y)
  | _, _ => none

/-- JavaScript compound addition acc += arr[i] where the right-hand side
came from an array read that may be out of range: reading a missing index
yields undefined, and number + undefined is NaN. -/
def jsAddRead (a : JNum) (v : Option JNum) : JNum :=
  match v with
  | none => none
  | some b => jsAdd a b

/-- Decidable equality for Except values, so that concrete runs of the
modelled fallible operations can be checked by evaluation. -/
instance {ε α : Type} [DecidableEq ε] [DecidableEq α] : DecidableEq (Except ε α) := fun x y =>
  match x, y with
  | .ok a, .ok b =>
    if h : a = b then .isTrue (by rw [h])
    else .isFalse (fun hh => h (Except.ok.inj hh))
  | .error a, .error b =>
    if h : a = b then .isTrue (by rw [h])
    else .isFalse (fun hh => h (Except.error.inj hh))
  | .ok _, .error _ => .isFalse (fun hh => Except.noConfusion hh)
  | .error _, .ok _ => .isFalse (fun hh => Except.noConfusion hh)

/-! ## stress.ts: thrown values and StressError -/

/-- A value thrown by the unit of work.  assertionError is an
AssertionError instance (which is also an Error); jsError is any other
Error instance; strv is a thrown string; otherv is any other thrown
value. -/
inductive Thrown where
  | assertionError (msg stack : String)
  | jsError (msg stack : String)
  | strv (s : String)
  | otherv
deriving DecidableEq

/-- The instanceof AssertionError test performed in the catch block of the
iteration loop (stress.ts line 237). -/
def Thrown.isAssertionError : Thrown → Bool
  | .assertionError _ _ => true
  | _ => false

/-- Model of the StressError wrapper (stress.ts lines 27-56).  stack is
none when the constructor captured a fresh stack instead of copying one
from the wrapped value. -/
structure StressError where
  name : String
  message : String
  stack : Option String
deriving DecidableEq

/-- The StressError constructor: an Error instance keeps its message and
stack; a thrown string keeps the string as message with a freshly captured
stack; anything else gets the fixed unknown message. -/
def StressError.ofThrown : Thrown → StressError
  | .assertionError m s => { name := "ERR_STRESS", message := m, stack := some s }
  | .jsError m s => { name := "ERR_STRESS", message := m, stack := some s }
  | .strv s => { name := "ERR_STRESS", message := s, stack := none }
  | .otherv => { name := "ERR_STRESS", message := "unknown stress error", stack := none }

/-! ## stress.ts: the iteration loop of Stress.run -/

/-- Result of one awaited invocation of the unit of work. -/
inductive WorkResult where
  | success
  | thrown (t : Thrown)
deriving DecidableEq

/-- The mutable state of one iteration loop (thread) of Stress.run,
together with the number of invocations of the unit of work it has
performed and whether it has executed the break statement. -/
structure LoopState where
  numPasses : Nat
  fails : List Thrown
  errors : List StressError
  invocations : Nat
  broke : Bool
deriving DecidableEq

/-- One iteration of the loop body of IterativeLoop (stress.ts lines
220-243).  work i is the outcome of awaiting the unit of work at iteration
i; timedOut i is the value the shared timedOut flag has when this
iteration reads it (the read happens only on the success path, after the
pass counter is incremented and the cooperative yield).  Once the loop has
broken, remaining iterations do nothing. -/
def loopStep (work : Nat → WorkResult) (timedOut : Nat → Bool)
    (st : LoopState) (i : Nat) : LoopState :=
  if st.broke then st
  else
    match work i with
    | .success =>
      let st := { st with numPasses := st.numPasses + 1,
                          invocations := st.invocations + 1 }
      if timedOut i then { st with broke := true } else st
    | .thrown t =>
      if t.isAssertionError then
        { st with fails := st.fails ++ [t], invocations := st.invocations + 1 }
      else
        { st with errors := st.errors ++ [StressError.ofThrown t],
                  invocations := st.invocations + 1 }

/-- The IterativeLoop closure of Stress.run: iterations sequential
executions of the loop body starting from empty accumulators. -/
def IterativeLoop (work : Nat → WorkResult) (timedOut : Nat → Bool)
    (iterations : Nat) : LoopState :=
  (List.range iterations).foldl (loopStep work timedOut) ⟨0, [], [], 0, false⟩

/-- The StressResult record returned by Stress.run. -/
structure StressResult where
  numPasses : Nat
  fails : List Thrown
  errors : List StressError
deriving DecidableEq

/-- The AssertionError raised by the final threshold assert of Stress.run
(line 260), carrying the expected and actual pass percentages that the
assert message interpolates. -/
structure ThresholdFailure where
  expectedPercent : ℚ
  actualPercent : ℚ
deriving DecidableEq

/-- The per-thread loop results of one Stress.run invocation: thread t
runs IterativeLoop with its own work outcomes and its own view of the
shared timedOut flag (work t i is the outcome of iteration i on thread t;
timedOut t i records the flag value thread t observes after its iteration
i succeeds). -/
def runLoops (dop iterations : Nat) (work : Nat → Nat → WorkResult)
    (timedOut : Nat → Nat → Bool) : List LoopState :=
  (List.range dop).map fun t => IterativeLoop (work t) (timedOut t) iterations

/-- Total passes accumulated across all dop loops of a run. -/
def runPasses (dop iterations : Nat) (work : Nat → Nat → WorkResult)
    (timedOut : Nat → Nat → Bool) : Nat :=
  ((runLoops dop iterations work timedOut).map LoopState.numPasses).sum

/-- The fails list accumulated across all dop loops of a run (thread order
is one serialization of the cooperative interleaving; all claims about
fails concern only its contents and length). -/
def runFails (dop iterations : Nat) (work : Nat → Nat → WorkResult)
    (timedOut : Nat → Nat → Bool) : List Thrown :=
  ((runLoops dop iterations work timedOut).map LoopState.fails).flatten

/-- The errors list accumulated across all dop loops of a run. -/
def runErrors (dop iterations : Nat) (work : Nat → Nat → WorkResult)
    (timedOut : Nat → Nat → Bool) : List StressError :=
  ((runLoops dop iterations work timedOut).map LoopState.errors).flatten

/-- Model of Stress.run (stress.ts lines 187-262), after the effective
options are resolved: spawn dop iteration loops, join them, compute
total = numPasses + errors.length + fails.length and assert
numPasses >= passThreshold * total; on violation the run rejects with the
threshold AssertionError, otherwise it returns the StressResult. -/
def runStress (dop iterations : Nat) (passThreshold : ℚ)
    (work : Nat → Nat → WorkResult) (timedOut : Nat → Nat → Bool) :
    Except ThresholdFailure StressResult :=
  let numPasses := runPasses dop iterations work timedOut
  let fails := runFails dop iterations work timedOut
  let errors := runErrors dop iterations work timedOut
  let total : ℚ := (numPasses : ℚ) + errors.length + fails.length
  if (numPasses : ℚ) < passThreshold * total then
    .error { expectedPercent := passThreshold * 100,
             actualPercent := (numPasses : ℚ) * 100 / total }
  else
    .ok { numPasses := numPasses, fails := fails, errors := errors }

/-! ## stress.ts: StressOptions resolution and constructor validation -/

/-- A value of a StressOptions field as seen by the coalescing helper:
undefined or null, NaN (also the result of parsing an unset or
non-numeric environment variable), or an actual number.  The empty-string
case of the helper is subsumed: no number has an empty string
representation. -/
inductive JsArg where
  | undef
  | nullv
  | nan
  | num (q : ℚ)
deriving DecidableEq

/-- Model of nullNanUndefinedEmptyCoalesce (utils.ts lines 100-102):
return the default when the value is null, undefined or NaN, the value
otherwise. -/
def nullNanUndefinedEmptyCoalesce (value : JsArg) (defaultValue : JsArg) : JsArg :=
  match value with
  | .num q => .num q
  | _ => defaultValue

/-- The same coalescing when the default is known to be a plain number
(the inner coalesce of each getter always receives a numeric hard-coded
default, so the chain always resolves to a number). -/
def coalesceQ (value : JsArg) (defaultValue : ℚ) : ℚ :=
  match value with
  | .num q => q
  | _ => defaultValue

/-- The parsed environment variables consulted by the Stress getters: each
field holds the result of parseFloat or parseInt on the corresponding
variable (nan when the variable is unset or does not parse). -/
structure StressEnv where
  StressRuntime : JsArg
  StressDop : JsArg
  StressIterations : JsArg
  StressPassThreshold : JsArg

/-- The constructor arguments of Stress (each possibly absent). -/
structure StressArgs where
  runtime : JsArg
  dop : JsArg
  iterations : JsArg
  passThreshold : JsArg

/-- Stress.getRuntime: constructor argument, else environment variable,
else the hard-coded default 7200 (stress.ts lines 169-172). -/
def Stress.getRuntime (input : JsArg) (env : StressEnv) : ℚ :=
  coalesceQ input (coalesceQ env.StressRuntime 7200)

/-- Stress.getDop: default 4 (stress.ts lines 164-167). -/
def Stress.getDop (input : JsArg) (env : StressEnv) : ℚ :=
  coalesceQ input (coalesceQ env.StressDop 4)

/-- Stress.getIterations: default 50 (stress.ts lines 159-162). -/
def Stress.getIterations (input : JsArg) (env : StressEnv) : ℚ :=
  coalesceQ input (coalesceQ env.StressIterations 50)

/-- Stress.getPassThreshold: default 0.95 (stress.ts lines 154-157). -/
def Stress.getPassThreshold (input : JsArg) (env : StressEnv) : ℚ :=
  coalesceQ input (coalesceQ env.StressPassThreshold (95/100))

/-- One class-validator ValidationError: the property it concerns and the
names of the constraints that failed for it. -/
structure ValidationError where
  property : String
  constraints : List String
deriving DecidableEq

/-- Whether a rational is an integer (the IsInt decorator). -/
def isJsInt (q : ℚ) : Bool := q.den == 1

/-- Failed constraints for the iterations field: IsDefined, IsInt, Min 0,
Max 1000000 (stress.ts lines 99-103; resolution guarantees definedness). -/
def iterationsConstraintFailures (q : ℚ) : List String :=
  (if isJsInt q then [] else ["isInt"]) ++
  (if q < 0 then ["min"] else []) ++
  (if q > 1000000 then ["max"] else [])

/-- Failed constraints for the runtime field: IsDefined, Min 0, Max 72000
(stress.ts lines 106-109). -/
def runtimeConstraintFailures (q : ℚ) : List String :=
  (if q < 0 then ["min"] else []) ++
  (if q > 72000 then ["max"] else [])

/-- Failed constraints for the dop field: IsDefined, IsInt, Min 1, Max 40
(stress.ts lines 112-116). -/
def dopConstraintFailures (q : ℚ) : List String :=
  (if isJsInt q then [] else ["isInt"]) ++
  (if q < 1 then ["min"] else []) ++
  (if q > 40 then ["max"] else [])

/-- Failed constraints for the passThreshold field: IsDefined, Min 0,
Max 1 (stress.ts lines 119-122). -/
def passThresholdConstraintFailures (q : ℚ) : List String :=
  (if q < 0 then ["min"] else []) ++
  (if q > 1 then ["max"] else [])

/-- Model of validateSync on a constructed Stress object: one
ValidationError per property with at least one failed constraint, in
field declaration order (iterations, runtime, dop, passThreshold);
properties with no failed constraint contribute nothing. -/
def validateStress (iterations runtime dop passThreshold : ℚ) : List ValidationError :=
  ([⟨"iterations", iterationsConstraintFailures iterations⟩,
    ⟨"runtime", runtimeConstraintFailures runtime⟩,
    ⟨"dop", dopConstraintFailures dop⟩,
    ⟨"passThreshold", passThresholdConstraintFailures passThreshold⟩]
    : List ValidationError).filter fun e => !e.constraints.isEmpty

/-- A successfully constructed Stress instance: the four resolved option
fields. -/
structure StressSpec where
  runtime : ℚ
  dop : ℚ
  iterations : ℚ
  passThreshold : ℚ
deriving DecidableEq

/-- Model of the Stress constructor (stress.ts lines 133-152): resolve
each field through its getter, run validateSync, and throw the full list
of validation errors when it is non-empty. -/
def Stress.construct (args : StressArgs) (env : StressEnv) :
    Except (List ValidationError) StressSpec :=
  let runtime := Stress.getRuntime args.runtime env
  let dop := Stress.getDop args.dop env
  let iterations := Stress.getIterations args.iterations env
  let passThreshold := Stress.getPassThreshold args.passThreshold env
  let validationErrors := validateStress iterations runtime dop passThreshold
  if validationErrors.isEmpty then
    .ok { runtime := runtime, dop := dop, iterations := iterations,
          passThreshold := passThreshold }
  else
    .error validationErrors

/-- The per-call resolution at the top of Stress.run (stress.ts lines
197-200): each per-call option is coalesced against the corresponding
instance field. -/
def runEffectiveOptions (call : StressArgs) (s : StressSpec) : StressSpec :=
  { runtime := coalesceQ call.runtime s.runtime,
    dop := coalesceQ call.dop s.dop,
    iterations := coalesceQ call.iterations s.iterations,
    passThreshold := coalesceQ call.passThreshold s.passThreshold }

/-- Written from the words of the specification, for comparison with the
code-derived resolution: the value of a field is the explicit call
argument if it is a number, else the constructor argument if it is a
number, else the parsed environment variable if it is a number, else the
hard-coded default. -/
def specPrecedence (call ctor env : JsArg) (dflt : ℚ) : ℚ :=
  match call with
  | .num q => q
  | _ =>
    match ctor with
    | .num q => q
    | _ =>
      match env with
      | .num q => q
      | _ => dflt

/-! ## utils.ts: process list and getChildrenTree -/

/-- A process list entry (utils.ts ProcessInfo, with the optional bin and
cmd fields omitted: getChildrenTree never reads them). -/
structure ProcessInfo where
  pid : Int
  ppid : Int
  name : String
deriving DecidableEq

/-- The error values thrown by the modelled utils and counters code. -/
inductive JsError where
  | invalidPid
  | unexpectedMatchCount
  | noProcessFound
  | assertionFailed
  | typeError
  | nonTermination
deriving DecidableEq

/-- An Int argument as JavaScript sees it: undefined, null, NaN, or a
number. -/
inductive JsIntArg where
  | undef
  | nullv
  | nan
  | val (n : Int)
deriving DecidableEq

/-- Model of getParent followed by the ppid extraction of getParentPid
(utils.ts lines 164-210), with a caller-supplied process list: filter the
list for the pid; exactly one match is required; the match yields its
ppid.  The subsequent undefined/null/NaN test on the ppid can never fire
in this typed model (and its NaN branch compares with triple equals, which
is false even for NaN). -/
def getParentPid (pid : Int) (processesList : List ProcessInfo) :
    Except JsError Int :=
  match processesList.filter (fun ps => ps.pid = pid) with
  | [p] => .ok p.ppid
  | _ => .error .unexpectedMatchCount

/-- The childrenMap built by getChildrenTree: buckets keyed by parent pid,
in first-appearance order, each bucket in process list order.  Mirrors the
lazily created array-of-lists of utils.ts lines 239-251. -/
def childrenMapAdd (m : List (Int × List ProcessInfo)) (p : ProcessInfo) :
    List (Int × List ProcessInfo) :=
  match m with
  | [] => [(p.ppid, [p])]
  | (k, l) :: rest =>
    if k = p.ppid then (k, l ++ [p]) :: rest
    else (k, l) :: childrenMapAdd rest p

/-- Bucket lookup: childrenMap at a pid, the empty list when the slot was
never created (the source guards the undefined slot before iterating). -/
def childrenMapFind (m : List (Int × List ProcessInfo)) (pid : Int) :
    List ProcessInfo :=
  match m with
  | [] => []
  | (k, l) :: rest => if k = pid then l else childrenMapFind rest pid

/-- The while loop of getChildrenTree (utils.ts lines 262-270): pop the
top of the toProcess stack, append it to childrenList, push its children.
The stack is modelled with its top at the head; pushing a bucket in order
c1, c2 and then popping yields c2 first, exactly as JavaScript push/pop on
the array end does.  The fuel argument bounds the number of loop
iterations; on well-formed (duplicate-free, acyclic) lists the loop pops
each process at most once, so the fuel chosen by the caller is never
exhausted there; exhaustion models non-termination of the source loop. -/
def childrenTreeLoop (buckets : List (Int × List ProcessInfo)) :
    Nat → List ProcessInfo → List ProcessInfo → Option (List ProcessInfo)
  | _, [], childrenList => some childrenList
  | 0, _ :: _, _ => none
  | fuel + 1, p :: rest, childrenList =>
    childrenTreeLoop buckets fuel
      ((childrenMapFind buckets p.pid).foldl (fun st c => c :: st) rest)
      (childrenList ++ [p])

/-- Model of getChildrenTree (utils.ts lines 218-274) with a
caller-supplied process list: reject undefined/null/NaN input pids; when
getTreeForParent is set, retarget to the parent pid unless that parent
pid is 0; build the childrenMap and locate the (last) entry for the
target pid in one pass; fail when no entry matches; then run the explicit
stack traversal. -/
def getChildrenTree (inputPid : JsIntArg) (getTreeForParent : Bool)
    (processesList : List ProcessInfo) : Except JsError (List ProcessInfo) :=
  match inputPid with
  | .undef => .error .invalidPid
  | .nullv => .error .invalidPid
  | .nan => .error .invalidPid
  | .val pid0 => do
    let targetPid ←
      if getTreeForParent then do
        let ppid ← getParentPid pid0 processesList
        pure (if ppid ≠ 0 then ppid else pid0)
      else
        pure pid0
    let buckets := processesList.foldl childrenMapAdd []
    let processForInputPid := processesList.foldl
      (fun acc p => if targetPid = p.pid then some p else acc)
      (none : Option ProcessInfo)
    match processForInputPid with
    | none => .error .noProcessFound
    | some root =>
      match childrenTreeLoop buckets
          ((processesList.length + 1) * (processesList.length + 1))
          [root] [] with
      | some childrenList => .ok childrenList
      | none => .error .nonTermination

/-! ## counters.ts: the per-pid series store -/

/-- One per-pid series (counters.ts ProcessStatisticsCollection) as the
collection code actually builds it: the value arrays are created lazily
per property, and the whole-computer entry never receives a ctime array
because its per-tick sample has no ctime property — hence ctime is
optional while the others are always created together. -/
structure Series where
  pid : Int
  ppid : Int
  cpu : List JNum
  memory : List JNum
  ctime : Option (List JNum)
  elapsed : List JNum
  timestamp : List JNum
deriving DecidableEq

/-- Association-list lookup for bracket-indexed properties keyed by pid
(last write wins, first match returned; keys are unique by
construction). -/
def propsLookup (props : List (Int × Series)) (pid : Int) : Option Series :=
  match props with
  | [] => none
  | (k, s) :: rest => if k = pid then some s else propsLookup rest pid

/-- Bracket-indexed property assignment: overwrite the existing slot in
place, or append a new slot in insertion order. -/
def propsSet (props : List (Int × Series)) (pid : Int) (s : Series) :
    List (Int × Series) :=
  match props with
  | [] => [(pid, s)]
  | (k, s0) :: rest =>
    if k = pid then (k, s) :: rest else (k, s0) :: propsSet rest pid s

/-- The collection field of Counters.  It is declared as a Map, but every
read and write in the source uses bracket indexing, which on a Map object
touches plain object properties, not Map entries; Map.prototype.clear
conversely clears only Map entries.  The model therefore keeps the two
stores separate: entries is the internal Map data (never written by this
code, cleared by clear()), props is the bracket-indexed property table in
insertion order (Object.keys / Object.values order). -/
structure JsMapSeries where
  entries : List (Int × Series)
  props : List (Int × Series)
deriving DecidableEq

/-- Map.prototype.clear: removes the internal entries, leaves the
bracket-indexed properties untouched. -/
def JsMapSeries.clear (m : JsMapSeries) : JsMapSeries :=
  { m with entries := [] }

/-- One per-tick sample (counters.ts ProcessStatistics): the synthetic
whole-computer sample has no ctime property, the pidusage samples do. -/
structure Sample where
  pid : Int
  ppid : Int
  cpu : JNum
  memory : JNum
  ctime : Option JNum
  elapsed : JNum
  timestamp : JNum
deriving DecidableEq

/-- Folding one sample into the collection properties (counters.ts lines
501-514): lazily create the pid entry with only pid/ppid set, lazily
create each property array, and push the sampled value of every non-pid,
non-ppid property present on the sample. -/
def foldSample (props : List (Int × Series)) (s : Sample) :
    List (Int × Series) :=
  let ser :=
    match propsLookup props s.pid with
    | some ser => ser
    | none => { pid := s.pid, ppid := s.ppid, cpu := [], memory := [],
                ctime := none, elapsed := [], timestamp := [] }
  let ser :=
    { ser with
      cpu := ser.cpu ++ [s.cpu],
      memory := ser.memory ++ [s.memory],
      ctime :=
        match s.ctime with
        | none => ser.ctime
        | some v => some ((ser.ctime.getD []) ++ [v]),
      elapsed := ser.elapsed ++ [s.elapsed],
      timestamp := ser.timestamp ++ [s.timestamp] }
  propsSet props s.pid ser

/-- One collectCounters tick: the whole-computer sample followed by the
per-pid samples are folded into the collection properties in order. -/
def recordTick (m : JsMapSeries) (samples : List Sample) : JsMapSeries :=
  { m with props := samples.foldl foldSample m.props }

/-! ## counters.ts: computeTotals -/

/-- The body of the per-process accumulation inside computeTotals
(counters.ts lines 551-558) at one timestamp index i: a tracked process
with no collection entry is skipped (contributes nothing); a tracked
process with an entry has its cpu, memory and ctime values at index i
added, where a read past the end of an array yields undefined and
poisons the sum to NaN; an entry whose ctime array was never created
makes the read ctime[i] throw a TypeError. -/
def totalsStep (props : List (Int × Series)) (i : Nat)
    (acc : JNum × JNum × JNum) (proc : ProcessInfo) :
    Except JsError (JNum × JNum × JNum) :=
  match propsLookup props proc.pid with
  | none => .ok acc
  | some ser =>
    match ser.ctime with
    | none => .error .typeError
    | some ct =>
      .ok (jsAddRead acc.1 (ser.cpu.get? i),
           jsAddRead acc.2.1 (ser.memory.get? i),
           jsAddRead acc.2.2 (ct.get? i))

/-- The totals triple (cpu, memory, ctime) computed at one timestamp
index. -/
def totalsAt (props : List (Int × Series)) (tracked : List ProcessInfo)
    (i : Nat) : Except JsError (JNum × JNum × JNum) :=
  tracked.foldlM (totalsStep props i) (some 0, some 0, some 0)

/-- Model of Counters.computeTotals (counters.ts lines 530-564): the
Totals pseudo-process entry (pid -1) gets empty cpu/memory/ctime arrays
and shares the elapsed and timestamp arrays of the root pid entry, whose
presence the code assumes (reading .elapsed of a missing entry throws);
then for every index of that timestamp array the tracked processes are
summed and the results stored at the same index of the totals arrays. -/
def computeTotals (props : List (Int × Series)) (tracked : List ProcessInfo)
    (rootPid : Int) : Except JsError (List (Int × Series)) :=
  match propsLookup props rootPid with
  | none => .error .typeError
  | some root => do
    let sums ← (List.range root.timestamp.length).mapM (totalsAt props tracked)
    .ok (propsSet props (-1)
      { pid := -1, ppid := -1,
        cpu := sums.map fun s => s.1,
        memory := sums.map fun s => s.2.1,
        ctime := some (sums.map fun s => s.2.2),
        elapsed := root.elapsed,
        timestamp := root.timestamp })

/-! ## counters.ts: moving averages -/

/-- Modelled from the moving-averages npm library: ma(data, 4) (imported
as sma) returns an array of the same length as its input whose first 3
entries are null and whose entry i for i at least 3 is the arithmetic
mean of the 4 inputs ending at i; when the window exceeds the data length
the result is an array of the input length with no numeric entries.  The
in-source comment at counters.ts line 601 documents exactly this shape.
NaN inputs propagate through the window mean. -/
def smaLib4 (data : List JNum) : List JNum :=
  if data.length < 4 then List.replicate data.length none
  else
    List.replicate 3 none ++
      (List.range (data.length - 3)).map fun j =>
        match data.get? j, data.get? (j+1), data.get? (j+2), data.get? (j+3) with
        | some a, some b, some c, some d =>
          (jsAdd (jsAdd (jsAdd a b) c) d).map fun s => s / 4
        | _, _, _, _ => none

/-- Modelled from the moving-averages npm library: ema(data, 4) is
dma(data, 2/5): an array of the same length as its input, seeded with the
first datum, each later entry being 2/5 of the datum plus 3/5 of the
previous output.  Only its length matters to the claims below. -/
def emaAux (prev : JNum) : List JNum → List JNum
  | [] => []
  | d :: rest =>
    let v := jsAdd ((d.map fun x => 2/5 * x)) (prev.map fun x => 3/5 * x)
    v :: emaAux v rest

/-- ema(data, 4): empty input gives an empty output, otherwise the head
seeds the recurrence. -/
def emaLib4 (data : List JNum) : List JNum :=
  match data with
  | [] => []
  | d :: rest => d :: emaAux d rest

/-- The simple-moving-average entry computeMovingAverages derives from
one collection entry (counters.ts lines 591-609): value properties are
sma over 4 with the first 3 entries pruned, elapsed and timestamp are
copied with the first 3 elements dropped. -/
def smaEntryOf (ser : Series) : Series :=
  { pid := ser.pid, ppid := ser.ppid,
    cpu := (smaLib4 ser.cpu).drop 3,
    memory := (smaLib4 ser.memory).drop 3,
    ctime := ser.ctime.map fun ct => (smaLib4 ct).drop 3,
    elapsed := ser.elapsed.drop 3,
    timestamp := ser.timestamp.drop 3 }

/-- The exponential-moving-average entry computeMovingAverages derives
from one collection entry: value properties are ema over 4 (no pruning in
the source), elapsed and timestamp are copied verbatim (the source copies
without the slice used on the sma side). -/
def emaEntryOf (ser : Series) : Series :=
  { pid := ser.pid, ppid := ser.ppid,
    cpu := emaLib4 ser.cpu,
    memory := emaLib4 ser.memory,
    ctime := ser.ctime.map emaLib4,
    elapsed := ser.elapsed,
    timestamp := ser.timestamp }

/-- Model of Counters.computeMovingAverages (counters.ts lines 589-611):
for every entry of the collection properties, in Object.values order,
assign the derived sma and ema entries into the two derived stores via
bracket indexing. -/
def computeMovingAverages (collection : List (Int × Series))
    (sma0 ema0 : List (Int × Series)) :
    (List (Int × Series)) × (List (Int × Series)) :=
  collection.foldl
    (fun acc e =>
      (propsSet acc.1 e.2.pid (smaEntryOf e.2),
       propsSet acc.2 e.2.pid (emaEntryOf e.2)))
    (sma0, ema0)

/-! ## counters.ts: lifecycle state machine -/

/-- The state of one Counters instance relevant to its lifecycle: the two
timers (true while armed), the tracked process list, and the three
series stores.  The timers model the non-null / null states of the
NodeJS.Timer fields; file and chart emission and the computed summary
statistics go to external sinks and a field no claim reads, and are not
modelled. -/
structure CountersState where
  pid : Int
  includeMovingAverages : Bool
  processesToTrackTimer : Bool
  countersTimer : Bool
  processesToTrack : List ProcessInfo
  collection : JsMapSeries
  smaOver4Collection : JsMapSeries
  emaOver4Collection : JsMapSeries
deriving DecidableEq

/-- Model of Counters.stop (counters.ts lines 307-332):
stopPopulatingProcessInfos and stopCollecting clear their timers (both
tolerate already-cleared timers), then computeTotals runs (it can throw),
then computeMovingAverages runs when enabled.  The statistics file and
chart outputs go to external sinks. -/
def Counters.stop (s : CountersState) : Except JsError CountersState :=
  let s := { s with processesToTrackTimer := false, countersTimer := false }
  match computeTotals s.collection.props s.processesToTrack s.pid with
  | .error e => .error e
  | .ok props1 =>
    let s := { s with collection := { s.collection with props := props1 } }
    if s.includeMovingAverages then
      let derived := computeMovingAverages s.collection.props
        s.smaOver4Collection.props s.emaOver4Collection.props
      .ok { s with
        smaOver4Collection := { s.smaOver4Collection with props := derived.1 },
        emaOver4Collection := { s.emaOver4Collection with props := derived.2 } }
    else
      .ok s

/-- Model of Counters.startPopulatingProcessInfos (counters.ts lines
462-483): assert that the refresh timer is null, run the first
getProcessInfos refresh synchronously (its getChildrenTree result is the
tracked parameter, an external fetch), then arm the refresh timer. -/
def Counters.startPopulatingProcessInfos (s : CountersState)
    (tracked : List ProcessInfo) : Except JsError CountersState :=
  if s.processesToTrackTimer then .error .assertionFailed
  else .ok { s with processesToTrack := tracked, processesToTrackTimer := true }

/-- Model of Counters.startCollecting (counters.ts lines 485-527): assert
that the counters timer is null, run the first collectCounters tick
synchronously (its samples are the externally fetched whole-computer and
per-pid statistics), then arm the counters timer. -/
def Counters.startCollecting (s : CountersState) (samples : List Sample) :
    Except JsError CountersState :=
  if s.countersTimer then .error .assertionFailed
  else .ok { s with collection := recordTick s.collection samples,
                    countersTimer := true }

/-- Model of Counters.start (counters.ts lines 291-299): if either timer
is active, await stop() first; then startPopulatingProcessInfos and
startCollecting. -/
def Counters.start (s : CountersState) (tracked : List ProcessInfo)
    (samples : List Sample) : Except JsError CountersState := do
  let s ← if s.countersTimer || s.processesToTrackTimer then
            Counters.stop s
          else
            pure s
  let s ← Counters.startPopulatingProcessInfos s tracked
  Counters.startCollecting s samples

/-- Model of Counters.reset (counters.ts lines 414-419): stop, then call
Map.prototype.clear on the three stores — which empties their internal
Map entries and leaves the bracket-indexed properties holding the
collected data untouched. -/
def Counters.reset (s : CountersState) : Except JsError CountersState := do
  let s ← Counters.stop s
  .ok { s with
    collection := s.collection.clear,
    smaOver4Collection := s.smaOver4Collection.clear,
    emaOver4Collection := s.emaOver4Collection.clear }

/-! ## Lemmas about the iteration loops -/

/-- The contribution of one loop to the final total: passes plus recorded
fails plus recorded errors. -/
def LoopState.tally (st : LoopState) : Nat :=
  st.numPasses + st.fails.length + st.errors.length

theorem loopStep_notTimedOut (work : Nat → WorkResult) (timedOut : Nat → Bool)
    (st : LoopState) (i : Nat) (hb : st.broke = false) (ht : timedOut i = false) :
    (loopStep work timedOut st i).broke = false ∧
    (loopStep work timedOut st i).tally = st.tally + 1 := by
  unfold loopStep
  rw [hb]
  cases hw : work i with
  | success => simp [ht, LoopState.tally, hb]; omega
  | thrown t =>
    cases hA : t.isAssertionError <;> simp [LoopState.tally, hb, hA] <;> omega

theorem loopFold_notTimedOut (work : Nat → WorkResult) (timedOut : Nat → Bool)
    (l : List Nat) :
    ∀ st : LoopState, st.broke = false → (∀ i ∈ l, timedOut i = false) →
      (l.foldl (loopStep work timedOut) st).broke = false ∧
      (l.foldl (loopStep work timedOut) st).tally = st.tally + l.length := by
  induction l with
  | nil => intro st hb _; simpa using hb
  | cons i rest ih =>
    intro st hb ht
    have h1 := loopStep_notTimedOut work timedOut st i hb
      (ht i (List.mem_cons_self i rest))
    have h2 := ih (loopStep work timedOut st i) h1.1
      (fun j hj => ht j (List.mem_cons_of_mem i hj))
    simp only [List.foldl_cons]
    exact ⟨h2.1, by rw [h2.2, h1.2]; simp; omega⟩

theorem IterativeLoop_tally (work : Nat → WorkResult) (timedOut : Nat → Bool)
    (iterations : Nat) (ht : ∀ i, timedOut i = false) :
    (IterativeLoop work timedOut iterations).tally = iterations := by
  have := loopFold_notTimedOut work timedOut (List.range iterations)
    ⟨0, [], [], 0, false⟩ rfl (fun i _ => ht i)
  simpa [IterativeLoop, LoopState.tally] using this.2

theorem sum_tally (l : List LoopState) :
    (l.map LoopState.numPasses).sum +
      ((l.map LoopState.fails).flatten).length +
      ((l.map LoopState.errors).flatten).length =
    (l.map LoopState.tally).sum := by
  induction l with
  | nil => simp
  | cons st rest ih => simp [LoopState.tally] at *; omega

theorem runTally (dop iterations : Nat) (work : Nat → Nat → WorkResult)
    (timedOut : Nat → Nat → Bool) (ht : ∀ t i, timedOut t i = false) :
    runPasses dop iterations work timedOut +
      (runFails dop iterations work timedOut).length +
      (runErrors dop iterations work timedOut).length = dop * iterations := by
  rw [runPasses, runFails, runErrors, sum_tally]
  have hmap : (runLoops dop iterations work timedOut).map LoopState.tally =
      (List.range dop).map (fun _ => iterations) := by
    rw [runLoops, List.map_map]
    exact List.map_congr_left fun t _ =>
      IterativeLoop_tally (work t) (timedOut t) iterations (ht t)
  rw [hmap]
  simp [List.map_const', mul_comm]

theorem runLoops_zero_iterations (dop : Nat) (work : Nat → Nat → WorkResult)
    (timedOut : Nat → Nat → Bool) :
    runPasses dop 0 work timedOut = 0 ∧
    runFails dop 0 work timedOut = [] ∧
    runErrors dop 0 work timedOut = [] := by
  refine ⟨?_, ?_, ?_⟩ <;>
    simp [runPasses, runFails, runErrors, runLoops, IterativeLoop, List.map_map,
      Function.comp]

/-- C1: for every run in which the runtime deadline never fires before the
loops finish, a returned StressResult satisfies
numPasses + fails.length + errors.length = dop * iterations; and the
end-to-end example dop=5, iterations=6, passThreshold=1 with an
always-succeeding unit of work returns numPasses=30 with empty fails and
errors. -/
theorem stressRun_total_conservation (dop iterations : Nat) (pt : ℚ)
    (work : Nat → Nat → WorkResult) (timedOut : Nat → Nat → Bool)
    (ht : ∀ t i, timedOut t i = false) :
    (∀ r : StressResult,
      runStress dop iterations pt work timedOut = .ok r →
      r.numPasses + r.fails.length + r.errors.length = dop * iterations) ∧
    runStress 5 6 1 (fun _ _ => .success) (fun _ _ => false) =
      .ok ⟨30, [], []⟩ := by
  constructor
  · intro r hr
    have htotal := runTally dop iterations work timedOut ht
    unfold runStress at hr
    by_cases hlt : (runPasses dop iterations work timedOut : ℚ) <
        pt * ((runPasses dop iterations work timedOut : ℚ) +
          (runErrors dop iterations work timedOut).length +
          (runFails dop iterations work timedOut).length)
    · simp [hlt] at hr
    · simp [hlt] at hr
      rw [← hr]
      simpa using htotal
  · norm_num [runStress, runPasses, runFails, runErrors, runLoops, IterativeLoop,
      loopStep, List.range_succ]

/-- Witness for C1 at dop=2, iterations=3: the conservation equation holds
for the concrete returned result. -/
theorem stressRun_total_conservation_witness :
    (⟨6, [], []⟩ : StressResult).numPasses +
      (⟨6, [], []⟩ : StressResult).fails.length +
      (⟨6, [], []⟩ : StressResult).errors.length = 2 * 3 :=
  (stressRun_total_conservation 2 3 (1/2) (fun _ _ => .success) (fun _ _ => false)
      (fun _ _ => rfl)).1 ⟨6, [], []⟩
    (by norm_num [runStress, runPasses, runFails, runErrors, runLoops, IterativeLoop,
      loopStep, List.range_succ])

/-- C2: the threshold AssertionError is raised exactly when, after all
loops complete, numPasses < passThreshold * total; it carries the expected
and actual pass percentages; and a run with iterations = 0 attempts
nothing and never raises the threshold failure for any passThreshold in
the unit interval. -/
theorem stressRun_threshold_iff (dop iterations : Nat) (pt : ℚ)
    (work : Nat → Nat → WorkResult) (timedOut : Nat → Nat → Bool) :
    ((∃ e, runStress dop iterations pt work timedOut = .error e) ↔
      (runPasses dop iterations work timedOut : ℚ) <
        pt * ((runPasses dop iterations work timedOut : ℚ) +
          (runErrors dop iterations work timedOut).length +
          (runFails dop iterations work timedOut).length)) ∧
    (∀ e, runStress dop iterations pt work timedOut = .error e →
      e.expectedPercent = pt * 100 ∧
      e.actualPercent = (runPasses dop iterations work timedOut : ℚ) * 100 /
        ((runPasses dop iterations work timedOut : ℚ) +
          (runErrors dop iterations work timedOut).length +
          (runFails dop iterations work timedOut).length)) ∧
    (0 ≤ pt → pt ≤ 1 →
      runStress dop 0 pt work timedOut = .ok ⟨0, [], []⟩) := by
  obtain ⟨hp, hf, he⟩ := runLoops_zero_iterations dop work timedOut
  by_cases hlt : (runPasses dop iterations work timedOut : ℚ) <
      pt * ((runPasses dop iterations work timedOut : ℚ) +
        (runErrors dop iterations work timedOut).length +
        (runFails dop iterations work timedOut).length)
  · refine ⟨?_, ?_, ?_⟩
    · simp [runStress, hlt]
    · intro e hee
      simp [runStress, hlt] at hee
      simp [← hee]
    · intro _ _
      simp [runStress, hp, hf, he]
  · refine ⟨?_, ?_, ?_⟩
    · simp [runStress, hlt]
    · intro e hee
      simp [runStress, hlt] at hee
    · intro _ _
      simp [runStress, hp, hf, he]

/-- Witness for C2 at dop=3, iterations=0, passThreshold=1/2: a zero-total
run returns the empty passing result. -/
theorem stressRun_threshold_iff_witness :
    runStress 3 0 (1/2) (fun _ _ => .success) (fun _ _ => false) =
      .ok ⟨0, [], []⟩ :=
  (stressRun_threshold_iff 3 0 (1/2) (fun _ _ => .success)
      (fun _ _ => false)).2.2 (by norm_num) (by norm_num)

/-- C5: a throwing iteration is classified by error kind: an
AssertionError is appended to fails, any other Error is wrapped as a
StressError preserving its message and stack and appended to errors, and
in both cases the loop does not break (the break flag stays down, so the
fold proceeds to the next iteration). -/
theorem stressLoop_classification (work : Nat → WorkResult)
    (timedOut : Nat → Bool) (st : LoopState) (i : Nat) (m s : String)
    (hb : st.broke = false) :
    (work i = .thrown (.assertionError m s) →
      loopStep work timedOut st i =
        { st with fails := st.fails ++ [.assertionError m s],
                  invocations := st.invocations + 1 }) ∧
    (work i = .thrown (.jsError m s) →
      loopStep work timedOut st i =
        { st with errors := st.errors ++ [StressError.ofThrown (.jsError m s)],
                  invocations := st.invocations + 1 } ∧
      StressError.ofThrown (.jsError m s) =
        { name := "ERR_STRESS", message := m, stack := some s }) ∧
    (∀ t : Thrown, work i = .thrown t →
      (loopStep work timedOut st i).broke = false) := by
  refine ⟨?_, ?_, ?_⟩
  · intro hw
    simp [loopStep, hb, hw, Thrown.isAssertionError]
  · intro hw
    refine ⟨?_, rfl⟩
    simp [loopStep, hb, hw, Thrown.isAssertionError]
  · intro t hw
    cases hA : t.isAssertionError <;> simp [loopStep, hb, hw, hA]

/-- Witness for C5 on a fresh loop state: an assertion failure lands in
fails, a plain error lands in errors wrapped with its message and stack,
and neither breaks the loop. -/
theorem stressLoop_classification_witness :
    ((fun j => if j = 0 then WorkResult.thrown (.assertionError "exp" "tr1")
               else WorkResult.thrown (.jsError "boom" "tr2")) 0 =
        .thrown (.assertionError "exp" "tr1") →
      loopStep (fun j => if j = 0 then .thrown (.assertionError "exp" "tr1")
                         else .thrown (.jsError "boom" "tr2"))
          (fun _ => true) ⟨0, [], [], 0, false⟩ 0 =
        { numPasses := 0, fails := [.assertionError "exp" "tr1"], errors := [],
          invocations := 1, broke := false }) ∧
    ((fun j => if j = 0 then WorkResult.thrown (.assertionError "exp" "tr1")
               else WorkResult.thrown (.jsError "boom" "tr2")) 1 =
        .thrown (.jsError "boom" "tr2") →
      loopStep (fun j => if j = 0 then .thrown (.assertionError "exp" "tr1")
                         else .thrown (.jsError "boom" "tr2"))
          (fun _ => true) ⟨0, [], [], 0, false⟩ 1 =
        { numPasses := 0, fails := [],
          errors := [StressError.ofThrown (.jsError "boom" "tr2")],
          invocations := 1, broke := false } ∧
      StressError.ofThrown (.jsError "boom" "tr2") =
        { name := "ERR_STRESS", message := "boom", stack := some "tr2" }) := by
  have h0 := stressLoop_classification
    (fun j => if j = 0 then .thrown (.assertionError "exp" "tr1")
              else .thrown (.jsError "boom" "tr2"))
    (fun _ => true) ⟨0, [], [], 0, false⟩ 0 "exp" "tr1" rfl
  have h1 := stressLoop_classification
    (fun j => if j = 0 then .thrown (.assertionError "exp" "tr1")
              else .thrown (.jsError "boom" "tr2"))
    (fun _ => true) ⟨0, [], [], 0, false⟩ 1 "boom" "tr2" rfl
  exact ⟨h0.1, h1.2.1⟩

theorem loopStep_thrown_invocations (work : Nat → WorkResult)
    (timedOut : Nat → Bool) (st : LoopState) (i : Nat)
    (hb : st.broke = false) (hns : work i ≠ .success) :
    (loopStep work timedOut st i).invocations = st.invocations + 1 ∧
    (loopStep work timedOut st i).broke = false := by
  unfold loopStep
  rw [hb]
  cases hw : work i with
  | success => exact absurd hw hns
  | thrown t => cases hA : t.isAssertionError <;> simp [hA]

theorem loopFold_neverSuccess (work : Nat → WorkResult)
    (timedOut : Nat → Bool) (l : List Nat) :
    ∀ st : LoopState, st.broke = false → (∀ i, work i ≠ .success) →
      (l.foldl (loopStep work timedOut) st).invocations =
        st.invocations + l.length ∧
      (l.foldl (loopStep work timedOut) st).broke = false := by
  induction l with
  | nil => intro st hb _; simpa using hb
  | cons i rest ih =>
    intro st hb hns
    have h1 := loopStep_thrown_invocations work timedOut st i hb (hns i)
    have h2 := ih (loopStep work timedOut st i) h1.2 hns
    simp only [List.foldl_cons]
    exact ⟨by rw [h2.1, h1.1]; simp; omega, h2.2⟩

/-- C10: the timedOut flag is consulted only after a successful iteration,
so when the unit of work throws on every invocation, every one of the dop
loops of a run performs exactly iterations invocations and never executes
the break, whatever the deadline trace says. -/
theorem stressRun_deadline_needs_success (dop iterations : Nat)
    (work : Nat → Nat → WorkResult) (timedOut : Nat → Nat → Bool)
    (hns : ∀ t i, work t i ≠ .success) :
    ∀ st ∈ runLoops dop iterations work timedOut,
      st.invocations = iterations ∧ st.broke = false := by
  intro st hst
  simp only [runLoops, List.mem_map, List.mem_range] at hst
  obtain ⟨t, _, rfl⟩ := hst
  have := loopFold_neverSuccess (work t) (timedOut t) (List.range iterations)
    ⟨0, [], [], 0, false⟩ rfl (hns t)
  simpa [IterativeLoop] using this

/-- Witness for C10: with an always-throwing unit of work and the deadline
flag permanently raised, a loop of 4 iterations still performs all 4
invocations without breaking. -/
theorem stressRun_deadline_needs_success_witness :
    (IterativeLoop (fun _ => .thrown (.jsError "boom" "tr"))
        (fun _ => true) 4).invocations = 4 ∧
    (IterativeLoop (fun _ => .thrown (.jsError "boom" "tr"))
        (fun _ => true) 4).broke = false :=
  stressRun_deadline_needs_success 1 4
    (fun _ _ => .thrown (.jsError "boom" "tr")) (fun _ _ => true)
    (fun _ _ h => WorkResult.noConfusion h)
    (IterativeLoop (fun _ => .thrown (.jsError "boom" "tr")) (fun _ => true) 4)
    (by simp [runLoops, List.range_succ])

/-! ## Lemmas about option resolution and validation -/

/-- The declared range of the runtime field: within 0 and MaxRuntime. -/
def runtimeInRange (q : ℚ) : Prop := 0 ≤ q ∧ q ≤ 72000

/-- The declared range of the dop field: an integer within 1 and MaxDop. -/
def dopInRange (q : ℚ) : Prop := isJsInt q = true ∧ 1 ≤ q ∧ q ≤ 40

/-- The declared range of the iterations field: an integer within 0 and
MaxIterations. -/
def iterationsInRange (q : ℚ) : Prop := isJsInt q = true ∧ 0 ≤ q ∧ q ≤ 1000000

/-- The declared range of the passThreshold field: within 0 and 1. -/
def passThresholdInRange (q : ℚ) : Prop := 0 ≤ q ∧ q ≤ 1

theorem runtimeConstraintFailures_nil_iff (q : ℚ) :
    runtimeConstraintFailures q = [] ↔ runtimeInRange q := by
  unfold runtimeConstraintFailures runtimeInRange
  split_ifs with h1 h2 <;> simp_all

theorem dopConstraintFailures_nil_iff (q : ℚ) :
    dopConstraintFailures q = [] ↔ dopInRange q := by
  unfold dopConstraintFailures dopInRange
  split_ifs with h1 h2 h3 <;> simp_all

theorem iterationsConstraintFailures_nil_iff (q : ℚ) :
    iterationsConstraintFailures q = [] ↔ iterationsInRange q := by
  unfold iterationsConstraintFailures iterationsInRange
  split_ifs with h1 h2 h3 <;> simp_all

theorem passThresholdConstraintFailures_nil_iff (q : ℚ) :
    passThresholdConstraintFailures q = [] ↔ passThresholdInRange q := by
  unfold passThresholdConstraintFailures passThresholdInRange
  split_ifs with h1 h2 <;> simp_all

theorem validateStress_nil_iff (i r d p : ℚ) :
    validateStress i r d p = [] ↔
      (iterationsConstraintFailures i = [] ∧ runtimeConstraintFailures r = [] ∧
       dopConstraintFailures d = [] ∧ passThresholdConstraintFailures p = []) := by
  simp [validateStress, List.filter_eq_nil_iff]

theorem validateStress_mem_iterations (i r d p : ℚ) :
    ("iterations" ∈ (validateStress i r d p).map ValidationError.property) ↔
      iterationsConstraintFailures i ≠ [] := by
  simp only [validateStress, List.mem_map, List.mem_filter]
  constructor
  · rintro ⟨a, ⟨ha, hne⟩, hp⟩
    simp only [List.mem_cons, List.not_mem_nil, or_false] at ha
    rcases ha with h | h | h | h <;> subst h <;> simp_all
  · intro h
    exact ⟨⟨"iterations", iterationsConstraintFailures i⟩,
      ⟨by simp, by simpa using h⟩, rfl⟩

theorem validateStress_mem_runtime (i r d p : ℚ) :
    ("runtime" ∈ (validateStress i r d p).map ValidationError.property) ↔
      runtimeConstraintFailures r ≠ [] := by
  simp only [validateStress, List.mem_map, List.mem_filter]
  constructor
  · rintro ⟨a, ⟨ha, hne⟩, hp⟩
    simp only [List.mem_cons, List.not_mem_nil, or_false] at ha
    rcases ha with h | h | h | h <;> subst h <;> simp_all
  · intro h
    exact ⟨⟨"runtime", runtimeConstraintFailures r⟩,
      ⟨by simp, by simpa using h⟩, rfl⟩

theorem validateStress_mem_dop (i r d p : ℚ) :
    ("dop" ∈ (validateStress i r d p).map ValidationError.property) ↔
      dopConstraintFailures d ≠ [] := by
  simp only [validateStress, List.mem_map, List.mem_filter]
  constructor
  · rintro ⟨a, ⟨ha, hne⟩, hp⟩
    simp only [List.mem_cons, List.not_mem_nil, or_false] at ha
    rcases ha with h | h | h | h <;> subst h <;> simp_all
  · intro h
    exact ⟨⟨"dop", dopConstraintFailures d⟩,
      ⟨by simp, by simpa using h⟩, rfl⟩

theorem validateStress_mem_passThreshold (i r d p : ℚ) :
    ("passThreshold" ∈ (validateStress i r d p).map ValidationError.property) ↔
      passThresholdConstraintFailures p ≠ [] := by
  simp only [validateStress, List.mem_map, List.mem_filter]
  constructor
  · rintro ⟨a, ⟨ha, hne⟩, hp⟩
    simp only [List.mem_cons, List.not_mem_nil, or_false] at ha
    rcases ha with h | h | h | h <;> subst h <;> simp_all
  · intro h
    exact ⟨⟨"passThreshold", passThresholdConstraintFailures p⟩,
      ⟨by simp, by simpa using h⟩, rfl⟩

theorem coalesce_getter (call ctor envv : JsArg) (d : ℚ) :
    coalesceQ call (coalesceQ ctor (coalesceQ envv d)) =
      specPrecedence call ctor envv d := by
  cases call <;> cases ctor <;> cases envv <;> rfl

/-- C9: every StressOptions field resolves with precedence explicit call
argument, then constructor argument, then environment variable, then
hard-coded default; construction succeeds exactly when every resolved
field lies in its declared range, and a failed construction throws the
aggregate of all field-level violations: a field appears in the thrown
error list exactly when it is out of range, so no violation is dropped
and no partially valid instance escapes. -/
theorem stressOptions_resolution (args : StressArgs) (env : StressEnv)
    (call : StressArgs) :
    (∀ s : StressSpec, Stress.construct args env = .ok s →
      runEffectiveOptions call s =
        { runtime := specPrecedence call.runtime args.runtime env.StressRuntime 7200,
          dop := specPrecedence call.dop args.dop env.StressDop 4,
          iterations :=
            specPrecedence call.iterations args.iterations env.StressIterations 50,
          passThreshold :=
            specPrecedence call.passThreshold args.passThreshold
              env.StressPassThreshold (95/100) }) ∧
    ((∃ s, Stress.construct args env = .ok s) ↔
      (iterationsInRange (Stress.getIterations args.iterations env) ∧
       runtimeInRange (Stress.getRuntime args.runtime env) ∧
       dopInRange (Stress.getDop args.dop env) ∧
       passThresholdInRange (Stress.getPassThreshold args.passThreshold env))) ∧
    (∀ errs, Stress.construct args env = .error errs →
      (((¬ iterationsInRange (Stress.getIterations args.iterations env)) ↔
          "iterations" ∈ errs.map ValidationError.property) ∧
       ((¬ runtimeInRange (Stress.getRuntime args.runtime env)) ↔
          "runtime" ∈ errs.map ValidationError.property) ∧
       ((¬ dopInRange (Stress.getDop args.dop env)) ↔
          "dop" ∈ errs.map ValidationError.property) ∧
       ((¬ passThresholdInRange (Stress.getPassThreshold args.passThreshold env)) ↔
          "passThreshold" ∈ errs.map ValidationError.property))) := by
  refine ⟨?_, ?_, ?_⟩
  · intro s hs
    unfold Stress.construct at hs
    by_cases hv : (validateStress (Stress.getIterations args.iterations env)
        (Stress.getRuntime args.runtime env) (Stress.getDop args.dop env)
        (Stress.getPassThreshold args.passThreshold env)).isEmpty
    · simp only [hv, if_true] at hs
      obtain rfl := (Except.ok.inj hs).symm
      unfold runEffectiveOptions Stress.getRuntime Stress.getDop
        Stress.getIterations Stress.getPassThreshold
      simp [coalesce_getter]
    · simp [hv] at hs
  · constructor
    · rintro ⟨s, hs⟩
      unfold Stress.construct at hs
      by_cases hv : (validateStress (Stress.getIterations args.iterations env)
          (Stress.getRuntime args.runtime env) (Stress.getDop args.dop env)
          (Stress.getPassThreshold args.passThreshold env)).isEmpty
      · rw [List.isEmpty_iff] at hv
        have := (validateStress_nil_iff _ _ _ _).mp hv
        exact ⟨(iterationsConstraintFailures_nil_iff _).mp this.1,
               (runtimeConstraintFailures_nil_iff _).mp this.2.1,
               (dopConstraintFailures_nil_iff _).mp this.2.2.1,
               (passThresholdConstraintFailures_nil_iff _).mp this.2.2.2⟩
      · simp [hv] at hs
    · rintro ⟨h1, h2, h3, h4⟩
      have hnil : validateStress (Stress.getIterations args.iterations env)
          (Stress.getRuntime args.runtime env) (Stress.getDop args.dop env)
          (Stress.getPassThreshold args.passThreshold env) = [] :=
        (validateStress_nil_iff _ _ _ _).mpr
          ⟨(iterationsConstraintFailures_nil_iff _).mpr h1,
           (runtimeConstraintFailures_nil_iff _).mpr h2,
           (dopConstraintFailures_nil_iff _).mpr h3,
           (passThresholdConstraintFailures_nil_iff _).mpr h4⟩
      refine ⟨⟨Stress.getRuntime args.runtime env, Stress.getDop args.dop env,
        Stress.getIterations args.iterations env,
        Stress.getPassThreshold args.passThreshold env⟩, ?_⟩
      unfold Stress.construct
      simp [hnil]
  · intro errs herrs
    unfold Stress.construct at herrs
    by_cases hv : (validateStress (Stress.getIterations args.iterations env)
        (Stress.getRuntime args.runtime env) (Stress.getDop args.dop env)
        (Stress.getPassThreshold args.passThreshold env)).isEmpty
    · simp [hv] at herrs
    · simp only [hv, if_false, Bool.false_eq_true] at herrs
      obtain rfl := (Except.error.inj herrs).symm
      refine ⟨?_, ?_, ?_, ?_⟩
      · rw [validateStress_mem_iterations]
        exact not_congr (iterationsConstraintFailures_nil_iff _).symm
      · rw [validateStress_mem_runtime]
        exact not_congr (runtimeConstraintFailures_nil_iff _).symm
      · rw [validateStress_mem_dop]
        exact not_congr (dopConstraintFailures_nil_iff _).symm
      · rw [validateStress_mem_passThreshold]
        exact not_congr (passThresholdConstraintFailures_nil_iff _).symm

/-- Witness for C9: with no constructor arguments and no usable
environment values, construction succeeds on the documented defaults, and
a per-call runtime of 10 takes precedence for the run while the other
fields fall through to the instance values. -/
theorem stressOptions_resolution_witness :
    runEffectiveOptions ⟨.num 10, .undef, .undef, .nan⟩ ⟨7200, 4, 50, 95/100⟩ =
      { runtime := specPrecedence (.num 10) .undef .nan 7200,
        dop := specPrecedence .undef .undef .nan 4,
        iterations := specPrecedence .undef .undef .nan 50,
        passThreshold := specPrecedence .nan .undef .nan (95/100) } :=
  (stressOptions_resolution ⟨.undef, .undef, .undef, .undef⟩
      ⟨.nan, .nan, .nan, .nan⟩ ⟨.num 10, .undef, .undef, .nan⟩).1
    ⟨7200, 4, 50, 95/100⟩
    (by norm_num [Stress.construct, Stress.getRuntime, Stress.getDop,
      Stress.getIterations, Stress.getPassThreshold, coalesceQ, validateStress,
      iterationsConstraintFailures, runtimeConstraintFailures,
      dopConstraintFailures, passThresholdConstraintFailures, isJsInt])

/-! ## Lemmas about getChildrenTree -/

theorem findLast_foldl_none (pid0 : Int) (l : List ProcessInfo) :
    (∀ q ∈ l, q.pid ≠ pid0) →
    ∀ acc : Option ProcessInfo,
      l.foldl (fun acc p => if pid0 = p.pid then some p else acc) acc = acc := by
  induction l with
  | nil => intro _ _; rfl
  | cons p rest ih =>
    intro h acc
    simp only [List.foldl_cons]
    rw [if_neg fun hh => h p (List.mem_cons_self p rest) hh.symm]
    exact ih (fun q hq => h q (List.mem_cons_of_mem p hq)) acc

set_option maxHeartbeats 1600000 in
/-- C8: on a synthetic process list holding a parent with non-zero pid,
a root, a sibling of the root and two levels of children under the root
(all pids distinct and non-zero), getChildrenTree on the root without the
parent flag returns exactly the root and its descendants, excluding the
sibling; with the parent flag it returns the parent's full subtree,
siblings included; an undefined, null or NaN input pid raises the
invalid-pid error on any list; and a target pid absent from the list
raises the no-process-found error. -/
theorem getChildrenTree_spec
    (pp rp sp ap bp gap gbp : Int) (pn rn sn an bn gan gbn : String)
    (hpp : pp ≠ 0) (hrp : rp ≠ 0) (hsp : sp ≠ 0) (hap : ap ≠ 0) (hbp : bp ≠ 0)
    (hgap : gap ≠ 0) (hgbp : gbp ≠ 0)
    (d1 : pp ≠ rp) (d2 : pp ≠ sp) (d3 : pp ≠ ap) (d4 : pp ≠ bp)
    (d5 : pp ≠ gap) (d6 : pp ≠ gbp)
    (d7 : rp ≠ sp) (d8 : rp ≠ ap) (d9 : rp ≠ bp) (d10 : rp ≠ gap) (d11 : rp ≠ gbp)
    (d12 : sp ≠ ap) (d13 : sp ≠ bp) (d14 : sp ≠ gap) (d15 : sp ≠ gbp)
    (d16 : ap ≠ bp) (d17 : ap ≠ gap) (d18 : ap ≠ gbp)
    (d19 : bp ≠ gap) (d20 : bp ≠ gbp)
    (d21 : gap ≠ gbp) :
    (∃ l, getChildrenTree (.val rp) false
        [⟨pp, 0, pn⟩, ⟨rp, pp, rn⟩, ⟨sp, pp, sn⟩, ⟨ap, rp, an⟩, ⟨bp, rp, bn⟩,
         ⟨gap, ap, gan⟩, ⟨gbp, bp, gbn⟩] = .ok l ∧
      ∀ x : ProcessInfo, x ∈ l ↔
        (x = ⟨rp, pp, rn⟩ ∨ x = ⟨ap, rp, an⟩ ∨ x = ⟨bp, rp, bn⟩ ∨
         x = ⟨gap, ap, gan⟩ ∨ x = ⟨gbp, bp, gbn⟩)) ∧
    (∃ l, getChildrenTree (.val rp) true
        [⟨pp, 0, pn⟩, ⟨rp, pp, rn⟩, ⟨sp, pp, sn⟩, ⟨ap, rp, an⟩, ⟨bp, rp, bn⟩,
         ⟨gap, ap, gan⟩, ⟨gbp, bp, gbn⟩] = .ok l ∧
      ∀ x : ProcessInfo, x ∈ l ↔
        (x = ⟨pp, 0, pn⟩ ∨ x = ⟨rp, pp, rn⟩ ∨ x = ⟨sp, pp, sn⟩ ∨
         x = ⟨ap, rp, an⟩ ∨ x = ⟨bp, rp, bn⟩ ∨
         x = ⟨gap, ap, gan⟩ ∨ x = ⟨gbp, bp, gbn⟩)) ∧
    (∀ (lst : List ProcessInfo) (flag : Bool),
      getChildrenTree .undef flag lst = .error .invalidPid ∧
      getChildrenTree .nullv flag lst = .error .invalidPid ∧
      getChildrenTree .nan flag lst = .error .invalidPid) ∧
    (∀ (lst : List ProcessInfo) (pid0 : Int), (∀ q ∈ lst, q.pid ≠ pid0) →
      getChildrenTree (.val pid0) false lst = .error .noProcessFound) := by
  refine ⟨⟨[⟨rp, pp, rn⟩, ⟨bp, rp, bn⟩, ⟨gbp, bp, gbn⟩, ⟨ap, rp, an⟩,
            ⟨gap, ap, gan⟩], ?_, ?_⟩,
          ⟨[⟨pp, 0, pn⟩, ⟨sp, pp, sn⟩, ⟨rp, pp, rn⟩, ⟨bp, rp, bn⟩,
            ⟨gbp, bp, gbn⟩, ⟨ap, rp, an⟩, ⟨gap, ap, gan⟩], ?_, ?_⟩, ?_, ?_⟩
  · simp [getChildrenTree, getParentPid, childrenMapAdd, childrenMapFind,
      childrenTreeLoop, bind, Except.bind, pure, Except.pure,
      hpp, hrp, hsp, hap, hbp, hgap, hgbp,
      d1, d2, d3, d4, d5, d6, d7, d8, d9, d10, d11, d12, d13, d14, d15, d16,
      d17, d18, d19, d20, d21,
      Ne.symm hpp, Ne.symm hrp, Ne.symm hsp, Ne.symm hap, Ne.symm hbp,
      Ne.symm hgap, Ne.symm hgbp,
      Ne.symm d1, Ne.symm d2, Ne.symm d3, Ne.symm d4, Ne.symm d5, Ne.symm d6,
      Ne.symm d7, Ne.symm d8, Ne.symm d9, Ne.symm d10, Ne.symm d11,
      Ne.symm d12, Ne.symm d13, Ne.symm d14, Ne.symm d15, Ne.symm d16,
      Ne.symm d17, Ne.symm d18, Ne.symm d19, Ne.symm d20, Ne.symm d21]
  · intro x
    simp only [List.mem_cons, List.not_mem_nil, or_false]
    tauto
  · simp [getChildrenTree, getParentPid, childrenMapAdd, childrenMapFind,
      childrenTreeLoop, bind, Except.bind, pure, Except.pure,
      hpp, hrp, hsp, hap, hbp, hgap, hgbp,
      d1, d2, d3, d4, d5, d6, d7, d8, d9, d10, d11, d12, d13, d14, d15, d16,
      d17, d18, d19, d20, d21,
      Ne.symm hpp, Ne.symm hrp, Ne.symm hsp, Ne.symm hap, Ne.symm hbp,
      Ne.symm hgap, Ne.symm hgbp,
      Ne.symm d1, Ne.symm d2, Ne.symm d3, Ne.symm d4, Ne.symm d5, Ne.symm d6,
      Ne.symm d7, Ne.symm d8, Ne.symm d9, Ne.symm d10, Ne.symm d11,
      Ne.symm d12, Ne.symm d13, Ne.symm d14, Ne.symm d15, Ne.symm d16,
      Ne.symm d17, Ne.symm d18, Ne.symm d19, Ne.symm d20, Ne.symm d21]
  · intro x
    simp only [List.mem_cons, List.not_mem_nil, or_false]
    tauto
  · intro lst flag
    refine ⟨?_, ?_, ?_⟩ <;> rfl
  · intro lst pid0 h
    simp only [getChildrenTree, bind, Except.bind, pure, Except.pure,
      Bool.false_eq_true, if_false]
    rw [findLast_foldl_none pid0 lst h none]

/-- Witness for C8: on the concrete synthetic list with pids 1..7, a
target pid absent from the list raises the no-process-found error. -/
theorem getChildrenTree_spec_witness :
    getChildrenTree (.val 99) false
      [⟨1, 0, "parent"⟩, ⟨2, 1, "root"⟩, ⟨3, 1, "sib"⟩, ⟨4, 2, "a"⟩,
       ⟨5, 2, "b"⟩, ⟨6, 4, "ga"⟩, ⟨7, 5, "gb"⟩] = .error .noProcessFound :=
  (getChildrenTree_spec 1 2 3 4 5 6 7 "parent" "root" "sib" "a" "b" "ga" "gb"
      (by decide) (by decide) (by decide) (by decide) (by decide) (by decide)
      (by decide) (by decide) (by decide) (by decide) (by decide) (by decide)
      (by decide) (by decide) (by decide) (by decide) (by decide) (by decide)
      (by decide) (by decide) (by decide) (by decide) (by decide) (by decide)
      (by decide) (by decide) (by decide) (by decide)).2.2.2
    [⟨1, 0, "parent"⟩, ⟨2, 1, "root"⟩, ⟨3, 1, "sib"⟩, ⟨4, 2, "a"⟩,
     ⟨5, 2, "b"⟩, ⟨6, 4, "ga"⟩, ⟨7, 5, "gb"⟩] 99 (by decide)

/-! ## Lemmas about computeTotals -/

/-- Written from the words of the claim, for comparison with the
code-derived totals: the sum over all currently-tracked processes of
their value at index i, where a tracked process that has no data recorded
at that index contributes 0. -/
def claimFieldTotalAt (props : List (Int × Series)) (f : Series → List JNum)
    (i : Nat) : List ProcessInfo → ℚ
  | [] => 0
  | p :: rest =>
    (match propsLookup props p.pid with
     | none => 0
     | some ser =>
       match (f ser).get? i with
       | some (some q) => q
       | _ => 0) + claimFieldTotalAt props f i rest

theorem mapM_ok {α β ε : Type} (f : α → Except ε β) (g : α → β) :
    ∀ l : List α, (∀ a ∈ l, f a = .ok (g a)) → l.mapM f = .ok (l.map g) := by
  intro l
  induction l with
  | nil => intro _; rfl
  | cons a rest ih =>
    intro h
    rw [List.mapM_cons, h a (List.mem_cons_self a rest),
      ih (fun b hb => h b (List.mem_cons_of_mem a hb))]
    rfl

theorem totalsAt_covered (props : List (Int × Series)) (i : Nat) :
    ∀ tracked : List ProcessInfo,
    (∀ p ∈ tracked, ∀ ser, propsLookup props p.pid = some ser →
      ∃ ct, ser.ctime = some ct ∧
        (∃ q, ser.cpu.get? i = some (some q)) ∧
        (∃ q, ser.memory.get? i = some (some q)) ∧
        (∃ q, ct.get? i = some (some q))) →
    ∀ a b c : ℚ,
      tracked.foldlM (totalsStep props i) ((some a : JNum), (some b : JNum), (some c : JNum)) =
        .ok (some (a + claimFieldTotalAt props (fun s => s.cpu) i tracked),
             some (b + claimFieldTotalAt props (fun s => s.memory) i tracked),
             some (c + claimFieldTotalAt props (fun s => s.ctime.getD []) i tracked)) := by
  intro tracked
  induction tracked with
  | nil => intro _ a b c; simp [claimFieldTotalAt, pure, Except.pure]
  | cons p rest ih =>
    intro h a b c
    have hrest := fun q hq => h q (List.mem_cons_of_mem p hq)
    rw [List.foldlM_cons]
    cases hl : propsLookup props p.pid with
    | none =>
      have : totalsStep props i (some a, some b, some c) p = .ok (some a, some b, some c) := by
        simp [totalsStep, hl]
      rw [this]
      simp only [claimFieldTotalAt, hl]
      rw [show ((Except.ok ((some a : JNum), (some b : JNum), (some c : JNum)) :
          Except JsError (JNum × JNum × JNum)) >>= fun s =>
            List.foldlM (totalsStep props i) s rest) =
          List.foldlM (totalsStep props i) (some a, some b, some c) rest from rfl]
      rw [ih hrest a b c]
      norm_num
    | some ser =>
      obtain ⟨ct, hct, ⟨q1, hq1⟩, ⟨q2, hq2⟩, ⟨q3, hq3⟩⟩ :=
        h p (List.mem_cons_self p rest) ser hl
      simp only [List.get?_eq_getElem?] at hq1 hq2 hq3
      have : totalsStep props i (some a, some b, some c) p =
          .ok (some (a + q1), some (b + q2), some (c + q3)) := by
        simp [totalsStep, hl, hct, hq1, hq2, hq3, jsAddRead, jsAdd]
      rw [this]
      rw [show ((Except.ok ((some (a + q1) : JNum), (some (b + q2) : JNum),
            (some (c + q3) : JNum)) : Except JsError (JNum × JNum × JNum)) >>= fun s =>
            List.foldlM (totalsStep props i) s rest) =
          List.foldlM (totalsStep props i) (some (a + q1), some (b + q2), some (c + q3))
            rest from rfl]
      rw [ih hrest (a + q1) (b + q2) (c + q3)]
      simp only [claimFieldTotalAt, hl, hct, Option.getD, List.get?_eq_getElem?,
        hq1, hq2, hq3]
      norm_num [add_assoc]

theorem computeTotals_unfold (props : List (Int × Series))
    (tracked : List ProcessInfo) (rootPid : Int) (root : Series)
    (hroot : propsLookup props rootPid = some root) :
    computeTotals props tracked rootPid = (do
      let sums ← (List.range root.timestamp.length).mapM (totalsAt props tracked)
      Except.ok (propsSet props (-1)
        { pid := -1, ppid := -1,
          cpu := sums.map fun s => s.1,
          memory := sums.map fun s => s.2.1,
          ctime := some (sums.map fun s => s.2.2),
          elapsed := root.elapsed,
          timestamp := root.timestamp })) := by
  rw [computeTotals.eq_def, hroot]

/-- C3 (amended): the Totals entry shares the root entry's elapsed and
timestamp arrays, and whenever every tracked process with a collection
entry has numeric data at every index of the root timestamp array (ctime
array present), the Totals value at each index is exactly the sum over
tracked processes of their value there, an absent pid contributing 0; the
example with full-length memory series 10,20 and 5,15 plus a tracked pid
with no entry yields Totals memory 15,35.  (When a tracked pid has an
entry whose arrays stop short of an index, the code instead poisons that
index to NaN — see the counterexample.) -/
theorem computeTotals_amended (props : List (Int × Series))
    (tracked : List ProcessInfo) (rootPid : Int) (root : Series)
    (hroot : propsLookup props rootPid = some root)
    (hcov : ∀ p ∈ tracked, ∀ ser, propsLookup props p.pid = some ser →
      ∃ ct, ser.ctime = some ct ∧
        ∀ i < root.timestamp.length,
          (∃ q, ser.cpu.get? i = some (some q)) ∧
          (∃ q, ser.memory.get? i = some (some q)) ∧
          (∃ q, ct.get? i = some (some q))) :
    computeTotals props tracked rootPid = .ok (propsSet props (-1)
      { pid := -1, ppid := -1,
        cpu := (List.range root.timestamp.length).map fun i =>
          some (claimFieldTotalAt props (fun s => s.cpu) i tracked),
        memory := (List.range root.timestamp.length).map fun i =>
          some (claimFieldTotalAt props (fun s => s.memory) i tracked),
        ctime := some ((List.range root.timestamp.length).map fun i =>
          some (claimFieldTotalAt props (fun s => s.ctime.getD []) i tracked)),
        elapsed := root.elapsed,
        timestamp := root.timestamp }) ∧
    computeTotals
      [(10, ⟨10, 1, [some 1, some 2], [some 10, some 20], some [some 0, some 0],
         [some 5, some 6], [some 100, some 200]⟩),
       (11, ⟨11, 1, [some 3, some 4], [some 5, some 15], some [some 0, some 0],
         [some 5, some 6], [some 100, some 200]⟩)]
      [⟨10, 1, "p10"⟩, ⟨11, 1, "p11"⟩, ⟨12, 1, "absent"⟩] 10 =
    .ok [(10, ⟨10, 1, [some 1, some 2], [some 10, some 20], some [some 0, some 0],
           [some 5, some 6], [some 100, some 200]⟩),
         (11, ⟨11, 1, [some 3, some 4], [some 5, some 15], some [some 0, some 0],
           [some 5, some 6], [some 100, some 200]⟩),
         (-1, ⟨-1, -1, [some 4, some 6], [some 15, some 35], some [some 0, some 0],
           [some 5, some 6], [some 100, some 200]⟩)] := by
  constructor
  · rw [computeTotals_unfold props tracked rootPid root hroot]
    rw [mapM_ok (totalsAt props tracked)
      (fun i => ((some (claimFieldTotalAt props (fun s => s.cpu) i tracked) : JNum),
        (some (claimFieldTotalAt props (fun s => s.memory) i tracked) : JNum),
        (some (claimFieldTotalAt props (fun s => s.ctime.getD []) i tracked) : JNum)))
      (List.range root.timestamp.length) ?_]
    · simp [List.map_map, Function.comp_def, bind, Except.bind]
    · intro i hi
      rw [List.mem_range] at hi
      have hcovi : ∀ p ∈ tracked, ∀ ser, propsLookup props p.pid = some ser →
          ∃ ct, ser.ctime = some ct ∧
            (∃ q, ser.cpu.get? i = some (some q)) ∧
            (∃ q, ser.memory.get? i = some (some q)) ∧
            (∃ q, ct.get? i = some (some q)) := by
        intro p hp ser hser
        obtain ⟨ct, hct, hall⟩ := hcov p hp ser hser
        exact ⟨ct, hct, hall i hi⟩
      have := totalsAt_covered props i tracked hcovi 0 0 0
      simpa [totalsAt] using this
  · norm_num [computeTotals, totalsAt, totalsStep, propsLookup, propsSet,
      List.range_succ, jsAddRead, jsAdd, List.mapM, List.mapM.loop, List.foldlM,
      bind, Except.bind, pure, Except.pure]

/-- Witness for the amended C3 at the two-pid example with an absent
tracked pid: the code totals equal the claim-side sums at every index. -/
theorem computeTotals_amended_witness :
    computeTotals
      [(10, ⟨10, 1, [some 1, some 2], [some 10, some 20], some [some 0, some 0],
         [some 5, some 6], [some 100, some 200]⟩),
       (11, ⟨11, 1, [some 3, some 4], [some 5, some 15], some [some 0, some 0],
         [some 5, some 6], [some 100, some 200]⟩)]
      [⟨10, 1, "p10"⟩, ⟨11, 1, "p11"⟩, ⟨12, 1, "absent"⟩] 10 =
    .ok (propsSet
      [(10, ⟨10, 1, [some 1, some 2], [some 10, some 20], some [some 0, some 0],
         [some 5, some 6], [some 100, some 200]⟩),
       (11, ⟨11, 1, [some 3, some 4], [some 5, some 15], some [some 0, some 0],
         [some 5, some 6], [some 100, some 200]⟩)] (-1)
      { pid := -1, ppid := -1,
        cpu := (List.range 2).map fun i =>
          some (claimFieldTotalAt
            [(10, ⟨10, 1, [some 1, some 2], [some 10, some 20], some [some 0, some 0],
               [some 5, some 6], [some 100, some 200]⟩),
             (11, ⟨11, 1, [some 3, some 4], [some 5, some 15], some [some 0, some 0],
               [some 5, some 6], [some 100, some 200]⟩)]
            (fun s => s.cpu) i [⟨10, 1, "p10"⟩, ⟨11, 1, "p11"⟩, ⟨12, 1, "absent"⟩]),
        memory := (List.range 2).map fun i =>
          some (claimFieldTotalAt
            [(10, ⟨10, 1, [some 1, some 2], [some 10, some 20], some [some 0, some 0],
               [some 5, some 6], [some 100, some 200]⟩),
             (11, ⟨11, 1, [some 3, some 4], [some 5, some 15], some [some 0, some 0],
               [some 5, some 6], [some 100, some 200]⟩)]
            (fun s => s.memory) i [⟨10, 1, "p10"⟩, ⟨11, 1, "p11"⟩, ⟨12, 1, "absent"⟩]),
        ctime := some ((List.range 2).map fun i =>
          some (claimFieldTotalAt
            [(10, ⟨10, 1, [some 1, some 2], [some 10, some 20], some [some 0, some 0],
               [some 5, some 6], [some 100, some 200]⟩),
             (11, ⟨11, 1, [some 3, some 4], [some 5, some 15], some [some 0, some 0],
               [some 5, some 6], [some 100, some 200]⟩)]
            (fun s => s.ctime.getD []) i
            [⟨10, 1, "p10"⟩, ⟨11, 1, "p11"⟩, ⟨12, 1, "absent"⟩])),
        elapsed := [some 5, some 6],
        timestamp := [some 100, some 200] }) :=
  (computeTotals_amended
    [(10, ⟨10, 1, [some 1, some 2], [some 10, some 20], some [some 0, some 0],
       [some 5, some 6], [some 100, some 200]⟩),
     (11, ⟨11, 1, [some 3, some 4], [some 5, some 15], some [some 0, some 0],
       [some 5, some 6], [some 100, some 200]⟩)]
    [⟨10, 1, "p10"⟩, ⟨11, 1, "p11"⟩, ⟨12, 1, "absent"⟩] 10
    ⟨10, 1, [some 1, some 2], [some 10, some 20], some [some 0, some 0],
      [some 5, some 6], [some 100, some 200]⟩
    (by norm_num [propsLookup])
    (by
      intro p hp ser hser
      simp only [List.mem_cons, List.not_mem_nil, or_false] at hp
      rcases hp with rfl | rfl | rfl
      · have hser2 : ser = ⟨10, 1, [some 1, some 2], [some 10, some 20],
            some [some 0, some 0], [some 5, some 6], [some 100, some 200]⟩ := by
          simpa [propsLookup] using hser.symm
        subst hser2
        refine ⟨[some 0, some 0], rfl, ?_⟩
        intro i hi
        norm_num at hi
        interval_cases i <;> exact ⟨⟨_, rfl⟩, ⟨_, rfl⟩, ⟨_, rfl⟩⟩
      · have hser2 : ser = ⟨11, 1, [some 3, some 4], [some 5, some 15],
            some [some 0, some 0], [some 5, some 6], [some 100, some 200]⟩ := by
          simpa [propsLookup] using hser.symm
        subst hser2
        refine ⟨[some 0, some 0], rfl, ?_⟩
        intro i hi
        norm_num at hi
        interval_cases i <;> exact ⟨⟨_, rfl⟩, ⟨_, rfl⟩, ⟨_, rfl⟩⟩
      · simp [propsLookup] at hser)).1

/-- C3 counterexample: with the root pid 10 carrying a two-sample series
and a tracked pid 11 whose series has data only at index 0 (it appeared
late), the claim predicts Totals memory 20 at index 1 (the missing datum
contributing 0); the code instead adds the undefined array read and
records NaN there. -/
theorem computeTotals_missing_index_counterexample :
    computeTotals
      [(10, ⟨10, 1, [some 1, some 2], [some 10, some 20], some [some 0, some 0],
         [some 5, some 6], [some 100, some 200]⟩),
       (11, ⟨11, 1, [some 3], [some 5], some [some 0], [some 5], [some 100]⟩)]
      [⟨10, 1, "p10"⟩, ⟨11, 1, "p11"⟩] 10 =
    .ok [(10, ⟨10, 1, [some 1, some 2], [some 10, some 20], some [some 0, some 0],
           [some 5, some 6], [some 100, some 200]⟩),
         (11, ⟨11, 1, [some 3], [some 5], some [some 0], [some 5], [some 100]⟩),
         (-1, ⟨-1, -1, [some 4, none], [some 15, none], some [some 0, none],
           [some 5, some 6], [some 100, some 200]⟩)] ∧
    claimFieldTotalAt
      [(10, ⟨10, 1, [some 1, some 2], [some 10, some 20], some [some 0, some 0],
         [some 5, some 6], [some 100, some 200]⟩),
       (11, ⟨11, 1, [some 3], [some 5], some [some 0], [some 5], [some 100]⟩)]
      (fun s => s.memory) 1 [⟨10, 1, "p10"⟩, ⟨11, 1, "p11"⟩] = 20 ∧
    (none : JNum) ≠ some (20 : ℚ) := by
  refine ⟨?_, ?_, by simp⟩
  · norm_num [computeTotals, totalsAt, totalsStep, propsLookup, propsSet,
      List.range_succ, jsAddRead, jsAdd, List.mapM, List.mapM.loop, List.foldlM,
      bind, Except.bind, pure, Except.pure]
  · norm_num [claimFieldTotalAt, propsLookup]

/-! ## Lemmas about computeMovingAverages -/

theorem smaLib4_length (l : List JNum) : (smaLib4 l).length = l.length := by
  unfold smaLib4
  split_ifs with h <;> simp <;> omega

theorem emaAux_length (prev : JNum) :
    ∀ l : List JNum, (emaAux prev l).length = l.length := by
  intro l
  induction l generalizing prev with
  | nil => rfl
  | cons d rest ih => simp [emaAux, ih]

theorem emaLib4_length (l : List JNum) : (emaLib4 l).length = l.length := by
  cases l with
  | nil => rfl
  | cons d rest => simp [emaLib4, emaAux_length]

theorem propsLookup_propsSet_self (m : List (Int × Series)) (k : Int) (v : Series) :
    propsLookup (propsSet m k v) k = some v := by
  induction m with
  | nil => simp [propsSet, propsLookup]
  | cons e rest ih =>
    by_cases h : e.1 = k <;> simp [propsSet, propsLookup, h, ih]

theorem propsLookup_propsSet_other (m : List (Int × Series)) (k : Int) (v : Series)
    (k2 : Int) (h : k ≠ k2) :
    propsLookup (propsSet m k v) k2 = propsLookup m k2 := by
  induction m with
  | nil => simp [propsSet, propsLookup, h]
  | cons e rest ih =>
    obtain ⟨k0, s0⟩ := e
    by_cases he : k0 = k
    · have hk2 : ¬ (k0 = k2) := by rw [he]; exact h
      simp [propsSet, propsLookup, he, hk2, h]
    · simp [propsSet, propsLookup, he, ih]

theorem computeMovingAverages_cons (e : Int × Series) (rest : List (Int × Series))
    (a b : List (Int × Series)) :
    computeMovingAverages (e :: rest) a b =
      computeMovingAverages rest (propsSet a e.2.pid (smaEntryOf e.2))
        (propsSet b e.2.pid (emaEntryOf e.2)) := rfl

theorem computeMovingAverages_lookup_notMem :
    ∀ (rest : List (Int × Series)) (a b : List (Int × Series)) (pid : Int),
    (∀ e ∈ rest, e.2.pid ≠ pid) →
    propsLookup (computeMovingAverages rest a b).1 pid = propsLookup a pid ∧
    propsLookup (computeMovingAverages rest a b).2 pid = propsLookup b pid := by
  intro rest
  induction rest with
  | nil => intro a b pid _; exact ⟨rfl, rfl⟩
  | cons e rest ih =>
    intro a b pid h
    rw [computeMovingAverages_cons]
    have he := h e (List.mem_cons_self e rest)
    obtain ⟨ih1, ih2⟩ := ih _ _ pid (fun q hq => h q (List.mem_cons_of_mem e hq))
    rw [ih1, ih2, propsLookup_propsSet_other _ _ _ _ he,
      propsLookup_propsSet_other _ _ _ _ he]
    exact ⟨rfl, rfl⟩

theorem computeMovingAverages_lookup :
    ∀ (collection : List (Int × Series)) (a b : List (Int × Series)),
    (∀ e ∈ collection, e.1 = e.2.pid) → (collection.map Prod.fst).Nodup →
    ∀ (pid : Int) (ser : Series), (pid, ser) ∈ collection →
    propsLookup (computeMovingAverages collection a b).1 pid = some (smaEntryOf ser) ∧
    propsLookup (computeMovingAverages collection a b).2 pid = some (emaEntryOf ser) := by
  intro collection
  induction collection with
  | nil => intro a b _ _ pid ser hmem; simp at hmem
  | cons e rest ih =>
    intro a b hkeys hnodup pid ser hmem
    rw [computeMovingAverages_cons]
    rcases List.mem_cons.mp hmem with heq | hmem2
    · obtain rfl : e = (pid, ser) := heq.symm
      have hpid : pid = ser.pid := hkeys (pid, ser) (List.mem_cons_self _ rest)
      have hnd : (pid :: rest.map Prod.fst).Nodup := by simpa using hnodup
      have hrest : ∀ q ∈ rest, q.2.pid ≠ pid := by
        intro q hq
        have hq1 : q.1 = q.2.pid := hkeys q (List.mem_cons_of_mem _ hq)
        have hne : q.1 ≠ pid := by
          intro hc
          have hmem3 : q.1 ∈ rest.map Prod.fst := List.mem_map_of_mem Prod.fst hq
          rw [hc] at hmem3
          exact (List.nodup_cons.mp hnd).1 hmem3
        rw [← hq1]
        exact hne
      obtain ⟨h1, h2⟩ := computeMovingAverages_lookup_notMem rest _ _ pid hrest
      rw [h1, h2]
      simp only [← hpid]
      rw [propsLookup_propsSet_self, propsLookup_propsSet_self]
      exact ⟨rfl, rfl⟩
    · have hnd2 : (rest.map Prod.fst).Nodup := by
        have : (e.1 :: rest.map Prod.fst).Nodup := by simpa using hnodup
        exact (List.nodup_cons.mp this).2
      exact ih _ _ (fun q hq => hkeys q (List.mem_cons_of_mem e hq))
        hnd2 pid ser hmem2

/-- C4 (amended): for every series whose field arrays all have length n,
the derived simple-moving-average entry has every array of length n - 3
(the 4-period window leaves the first 3 positions undefined and they are
pruned, elapsed and timestamp dropped identically, so the sma entry stays
index-aligned), while the derived exponential-moving-average entry keeps
every value array at the full length n with elapsed and timestamp copied
verbatim (the ema recurrence is defined from the first element and the
source never drops its first 3 entries); and in the derived stores each
collection entry is mapped to exactly these two derived entries under its
pid. -/
theorem computeMovingAverages_amended :
    (∀ (ser : Series) (n : Nat) (ct : List JNum),
      ser.cpu.length = n → ser.memory.length = n → ser.ctime = some ct →
      ct.length = n → ser.elapsed.length = n → ser.timestamp.length = n →
      ((smaEntryOf ser).cpu.length = n - 3 ∧
       (smaEntryOf ser).memory.length = n - 3 ∧
       (∃ sct, (smaEntryOf ser).ctime = some sct ∧ sct.length = n - 3) ∧
       (smaEntryOf ser).elapsed.length = n - 3 ∧
       (smaEntryOf ser).timestamp.length = n - 3) ∧
      ((emaEntryOf ser).cpu.length = n ∧
       (emaEntryOf ser).memory.length = n ∧
       (∃ ect, (emaEntryOf ser).ctime = some ect ∧ ect.length = n) ∧
       (emaEntryOf ser).elapsed = ser.elapsed ∧
       (emaEntryOf ser).timestamp = ser.timestamp)) ∧
    (∀ (collection a b : List (Int × Series)),
      (∀ e ∈ collection, e.1 = e.2.pid) → (collection.map Prod.fst).Nodup →
      ∀ (pid : Int) (ser : Series), (pid, ser) ∈ collection →
      propsLookup (computeMovingAverages collection a b).1 pid =
        some (smaEntryOf ser) ∧
      propsLookup (computeMovingAverages collection a b).2 pid =
        some (emaEntryOf ser)) := by
  constructor
  · intro ser n ct h1 h2 hct h3 h4 h5
    refine ⟨⟨?_, ?_, ⟨(smaLib4 ct).drop 3, ?_, ?_⟩, ?_, ?_⟩,
            ⟨?_, ?_, ⟨emaLib4 ct, ?_, ?_⟩, rfl, rfl⟩⟩ <;>
      simp [smaEntryOf, emaEntryOf, smaLib4_length, emaLib4_length,
        hct, h1, h2, h3, h4, h5]
  · exact computeMovingAverages_lookup

/-- C4 counterexample: on a 6-element raw series, the derived
exponential-moving-average entry keeps all 6 elements in its value arrays
and copies the 6-element timestamp array verbatim, where the claim
demands 3-element derived series in the ema store as well. -/
theorem computeMovingAverages_ema_counterexample :
    (computeMovingAverages
      [(1, ⟨1, 0, [some 1, some 2, some 3, some 4, some 5, some 6],
        [some 1, some 2, some 3, some 4, some 5, some 6],
        some [some 1, some 2, some 3, some 4, some 5, some 6],
        [some 1, some 2, some 3, some 4, some 5, some 6],
        [some 1, some 2, some 3, some 4, some 5, some 6]⟩)] [] []).2 =
      [(1, emaEntryOf ⟨1, 0, [some 1, some 2, some 3, some 4, some 5, some 6],
        [some 1, some 2, some 3, some 4, some 5, some 6],
        some [some 1, some 2, some 3, some 4, some 5, some 6],
        [some 1, some 2, some 3, some 4, some 5, some 6],
        [some 1, some 2, some 3, some 4, some 5, some 6]⟩)] ∧
    (emaEntryOf ⟨1, 0, [some 1, some 2, some 3, some 4, some 5, some 6],
        [some 1, some 2, some 3, some 4, some 5, some 6],
        some [some 1, some 2, some 3, some 4, some 5, some 6],
        [some 1, some 2, some 3, some 4, some 5, some 6],
        [some 1, some 2, some 3, some 4, some 5, some 6]⟩).memory.length = 6 ∧
    (emaEntryOf ⟨1, 0, [some 1, some 2, some 3, some 4, some 5, some 6],
        [some 1, some 2, some 3, some 4, some 5, some 6],
        some [some 1, some 2, some 3, some 4, some 5, some 6],
        [some 1, some 2, some 3, some 4, some 5, some 6],
        [some 1, some 2, some 3, some 4, some 5, some 6]⟩).timestamp.length = 6 ∧
    (6 : Nat) ≠ 6 - 3 := by
  refine ⟨rfl, ?_, rfl, by omega⟩
  simp [emaEntryOf, emaLib4_length]

/-- Witness for the amended C4 at a concrete 6-element series: the sma
entry arrays all have 3 elements and the ema entry keeps 6. -/
theorem computeMovingAverages_amended_witness :
    ((smaEntryOf ⟨1, 0, [some 1, some 2, some 3, some 4, some 5, some 6],
        [some 1, some 2, some 3, some 4, some 5, some 6],
        some [some 1, some 2, some 3, some 4, some 5, some 6],
        [some 1, some 2, some 3, some 4, some 5, some 6],
        [some 1, some 2, some 3, some 4, some 5, some 6]⟩).cpu.length = 6 - 3 ∧
     (smaEntryOf ⟨1, 0, [some 1, some 2, some 3, some 4, some 5, some 6],
        [some 1, some 2, some 3, some 4, some 5, some 6],
        some [some 1, some 2, some 3, some 4, some 5, some 6],
        [some 1, some 2, some 3, some 4, some 5, some 6],
        [some 1, some 2, some 3, some 4, some 5, some 6]⟩).memory.length = 6 - 3 ∧
     (∃ sct, (smaEntryOf ⟨1, 0, [some 1, some 2, some 3, some 4, some 5, some 6],
        [some 1, some 2, some 3, some 4, some 5, some 6],
        some [some 1, some 2, some 3, some 4, some 5, some 6],
        [some 1, some 2, some 3, some 4, some 5, some 6],
        [some 1, some 2, some 3, some 4, some 5, some 6]⟩).ctime = some sct ∧
        sct.length = 6 - 3) ∧
     (smaEntryOf ⟨1, 0, [some 1, some 2, some 3, some 4, some 5, some 6],
        [some 1, some 2, some 3, some 4, some 5, some 6],
        some [some 1, some 2, some 3, some 4, some 5, some 6],
        [some 1, some 2, some 3, some 4, some 5, some 6],
        [some 1, some 2, some 3, some 4, some 5, some 6]⟩).elapsed.length = 6 - 3 ∧
     (smaEntryOf ⟨1, 0, [some 1, some 2, some 3, some 4, some 5, some 6],
        [some 1, some 2, some 3, some 4, some 5, some 6],
        some [some 1, some 2, some 3, some 4, some 5, some 6],
        [some 1, some 2, some 3, some 4, some 5, some 6],
        [some 1, some 2, some 3, some 4, some 5, some 6]⟩).timestamp.length = 6 - 3) ∧
    ((emaEntryOf ⟨1, 0, [some 1, some 2, some 3, some 4, some 5, some 6],
        [some 1, some 2, some 3, some 4, some 5, some 6],
        some [some 1, some 2, some 3, some 4, some 5, some 6],
        [some 1, some 2, some 3, some 4, some 5, some 6],
        [some 1, some 2, some 3, some 4, some 5, some 6]⟩).cpu.length = 6 ∧
     (emaEntryOf ⟨1, 0, [some 1, some 2, some 3, some 4, some 5, some 6],
        [some 1, some 2, some 3, some 4, some 5, some 6],
        some [some 1, some 2, some 3, some 4, some 5, some 6],
        [some 1, some 2, some 3, some 4, some 5, some 6],
        [some 1, some 2, some 3, some 4, some 5, some 6]⟩).memory.length = 6 ∧
     (∃ ect, (emaEntryOf ⟨1, 0, [some 1, some 2, some 3, some 4, some 5, some 6],
        [some 1, some 2, some 3, some 4, some 5, some 6],
        some [some 1, some 2, some 3, some 4, some 5, some 6],
        [some 1, some 2, some 3, some 4, some 5, some 6],
        [some 1, some 2, some 3, some 4, some 5, some 6]⟩).ctime = some ect ∧
        ect.length = 6) ∧
     (emaEntryOf ⟨1, 0, [some 1, some 2, some 3, some 4, some 5, some 6],
        [some 1, some 2, some 3, some 4, some 5, some 6],
        some [some 1, some 2, some 3, some 4, some 5, some 6],
        [some 1, some 2, some 3, some 4, some 5, some 6],
        [some 1, some 2, some 3, some 4, some 5, some 6]⟩).elapsed =
       (⟨1, 0, [some 1, some 2, some 3, some 4, some 5, some 6],
        [some 1, some 2, some 3, some 4, some 5, some 6],
        some [some 1, some 2, some 3, some 4, some 5, some 6],
        [some 1, some 2, some 3, some 4, some 5, some 6],
        [some 1, some 2, some 3, some 4, some 5, some 6]⟩ : Series).elapsed ∧
     (emaEntryOf ⟨1, 0, [some 1, some 2, some 3, some 4, some 5, some 6],
        [some 1, some 2, some 3, some 4, some 5, some 6],
        some [some 1, some 2, some 3, some 4, some 5, some 6],
        [some 1, some 2, some 3, some 4, some 5, some 6],
        [some 1, some 2, some 3, some 4, some 5, some 6]⟩).timestamp =
       (⟨1, 0, [some 1, some 2, some 3, some 4, some 5, some 6],
        [some 1, some 2, some 3, some 4, some 5, some 6],
        some [some 1, some 2, some 3, some 4, some 5, some 6],
        [some 1, some 2, some 3, some 4, some 5, some 6],
        [some 1, some 2, some 3, some 4, some 5, some 6]⟩ : Series).timestamp) :=
  (computeMovingAverages_amended).1
    ⟨1, 0, [some 1, some 2, some 3, some 4, some 5, some 6],
      [some 1, some 2, some 3, some 4, some 5, some 6],
      some [some 1, some 2, some 3, some 4, some 5, some 6],
      [some 1, some 2, some 3, some 4, some 5, some 6],
      [some 1, some 2, some 3, some 4, some 5, some 6]⟩ 6
    [some 1, some 2, some 3, some 4, some 5, some 6]
    rfl rfl rfl rfl rfl rfl

/-! ## Lemmas about the Counters lifecycle -/

theorem countersStop_timers (s s0 : CountersState)
    (h : Counters.stop s = .ok s0) :
    s0.processesToTrackTimer = false ∧ s0.countersTimer = false := by
  simp only [Counters.stop] at h
  cases hc : computeTotals s.collection.props s.processesToTrack s.pid with
  | error e => rw [hc] at h; cases h
  | ok props1 =>
    rw [hc] at h
    by_cases hma : s.includeMovingAverages <;> simp [hma] at h <;>
      rw [← h] <;> exact ⟨rfl, rfl⟩

/-- C6 (amended): calling start() while either timer is active does not
raise the re-entrancy assertion; it first awaits stop() (terminating the
previous collection) and then restarts both loops, returning the
restarted state.  The assertion guards live in
startPopulatingProcessInfos and startCollecting, which raise only when
invoked directly while their own timer is still armed — start() itself
never trips them because it stops first. -/
theorem countersStart_restart (s : CountersState) (tracked : List ProcessInfo)
    (samples : List Sample) (s0 : CountersState)
    (hactive : s.countersTimer = true ∨ s.processesToTrackTimer = true)
    (hstop : Counters.stop s = .ok s0) :
    Counters.start s tracked samples = .ok
      { s0 with processesToTrack := tracked, processesToTrackTimer := true,
                countersTimer := true,
                collection := recordTick s0.collection samples } ∧
    (∀ s2 : CountersState, s2.processesToTrackTimer = true →
      ∀ tr, Counters.startPopulatingProcessInfos s2 tr = .error .assertionFailed) ∧
    (∀ s2 : CountersState, s2.countersTimer = true →
      ∀ sm, Counters.startCollecting s2 sm = .error .assertionFailed) := by
  obtain ⟨ht1, ht2⟩ := countersStop_timers s s0 hstop
  have hcond : (s.countersTimer || s.processesToTrackTimer) = true := by
    rcases hactive with h | h <;> simp [h]
  refine ⟨?_, ?_, ?_⟩
  · unfold Counters.start
    rw [hcond]
    simp only [if_true, hstop, bind, Except.bind]
    unfold Counters.startPopulatingProcessInfos
    rw [ht1]
    simp only [Bool.false_eq_true, if_false]
    unfold Counters.startCollecting
    simp only [ht2, Bool.false_eq_true, if_false]
  · intro s2 h2 tr
    unfold Counters.startPopulatingProcessInfos
    rw [h2]
    rfl
  · intro s2 h2 sm
    unfold Counters.startCollecting
    rw [h2]
    rfl

/-- C6 counterexample: on a state whose two timers are both active (a
collection in progress, with one sampled series so that stop() can
compute its totals), start() returns successfully with the collection
restarted — it does not raise the assertion failure the claim expects. -/
theorem countersStart_restart_counterexample :
    Counters.start
      ⟨10, false, true, true, [⟨10, 1, "p"⟩],
        ⟨[], [(10, ⟨10, 1, [some 1], [some 2], some [some 3], [some 4], [some 5]⟩)]⟩,
        ⟨[], []⟩, ⟨[], []⟩⟩
      [⟨10, 1, "p"⟩] [⟨0, 0, some 7, some 8, none, some 9, some 10⟩] =
    .ok ⟨10, false, true, true, [⟨10, 1, "p"⟩],
      ⟨[], [(10, ⟨10, 1, [some 1], [some 2], some [some 3], [some 4], [some 5]⟩),
            (-1, ⟨-1, -1, [some 1], [some 2], some [some 3], [some 4], [some 5]⟩),
            (0, ⟨0, 0, [some 7], [some 8], none, [some 9], [some 10]⟩)]⟩,
      ⟨[], []⟩, ⟨[], []⟩⟩ := by
  norm_num [Counters.start, Counters.stop, Counters.startPopulatingProcessInfos,
    Counters.startCollecting, computeTotals, totalsAt, totalsStep, propsLookup,
    propsSet, recordTick, foldSample, List.range_succ, jsAdd, jsAddRead,
    List.mapM, List.mapM.loop, List.foldlM, bind, Except.bind, pure, Except.pure]

/-- Witness for the amended C6: on the concrete active state, start()
stops the previous collection and restarts it. -/
theorem countersStart_restart_witness :
    Counters.start
      ⟨10, false, true, true, [⟨10, 1, "p"⟩],
        ⟨[], [(10, ⟨10, 1, [some 1], [some 2], some [some 3], [some 4], [some 5]⟩)]⟩,
        ⟨[], []⟩, ⟨[], []⟩⟩
      [⟨10, 1, "p"⟩] [] =
    .ok { (⟨10, false, false, false, [⟨10, 1, "p"⟩],
        ⟨[], [(10, ⟨10, 1, [some 1], [some 2], some [some 3], [some 4], [some 5]⟩),
              (-1, ⟨-1, -1, [some 1], [some 2], some [some 3], [some 4], [some 5]⟩)]⟩,
        ⟨[], []⟩, ⟨[], []⟩⟩ : CountersState) with
        processesToTrack := [⟨10, 1, "p"⟩],
        processesToTrackTimer := true,
        countersTimer := true,
        collection := recordTick
          ⟨[], [(10, ⟨10, 1, [some 1], [some 2], some [some 3], [some 4], [some 5]⟩),
                (-1, ⟨-1, -1, [some 1], [some 2], some [some 3], [some 4], [some 5]⟩)]⟩
          [] } :=
  (countersStart_restart
    ⟨10, false, true, true, [⟨10, 1, "p"⟩],
      ⟨[], [(10, ⟨10, 1, [some 1], [some 2], some [some 3], [some 4], [some 5]⟩)]⟩,
      ⟨[], []⟩, ⟨[], []⟩⟩
    [⟨10, 1, "p"⟩] []
    ⟨10, false, false, false, [⟨10, 1, "p"⟩],
      ⟨[], [(10, ⟨10, 1, [some 1], [some 2], some [some 3], [some 4], [some 5]⟩),
            (-1, ⟨-1, -1, [some 1], [some 2], some [some 3], [some 4], [some 5]⟩)]⟩,
      ⟨[], []⟩, ⟨[], []⟩⟩
    (Or.inl rfl)
    (by norm_num [Counters.stop, computeTotals, totalsAt, totalsStep,
      propsLookup, propsSet, List.range_succ, jsAdd, jsAddRead,
      List.mapM, List.mapM.loop, List.foldlM, bind, Except.bind, pure,
      Except.pure])).1

/-- C7: reset() fails to clear the collected data.  A series recorded by
a sampling tick is stored as a bracket-indexed property on the Map
object, while reset() calls Map.prototype.clear, which removes only
internal Map entries; after reset() the per-pid series is still
retrievable, and stop() inside reset() has even repopulated the Totals
entry and the two derived moving-average stores. -/
theorem countersReset_leaves_data :
    Counters.reset
      ⟨10, true, false, false, [⟨10, 1, "p"⟩],
        recordTick ⟨[], []⟩ [⟨10, 1, some 1, some 2, some (some 3), some 4, some 5⟩],
        ⟨[], []⟩, ⟨[], []⟩⟩ =
    .ok ⟨10, true, false, false, [⟨10, 1, "p"⟩],
      ⟨[], [(10, ⟨10, 1, [some 1], [some 2], some [some 3], [some 4], [some 5]⟩),
            (-1, ⟨-1, -1, [some 1], [some 2], some [some 3], [some 4], [some 5]⟩)]⟩,
      ⟨[], [(10, smaEntryOf ⟨10, 1, [some 1], [some 2], some [some 3], [some 4], [some 5]⟩),
            (-1, smaEntryOf ⟨-1, -1, [some 1], [some 2], some [some 3], [some 4], [some 5]⟩)]⟩,
      ⟨[], [(10, emaEntryOf ⟨10, 1, [some 1], [some 2], some [some 3], [some 4], [some 5]⟩),
            (-1, emaEntryOf ⟨-1, -1, [some 1], [some 2], some [some 3], [some 4], [some 5]⟩)]⟩⟩ ∧
    propsLookup
      [(10, (⟨10, 1, [some 1], [some 2], some [some 3], [some 4], [some 5]⟩ : Series)),
       (-1, ⟨-1, -1, [some 1], [some 2], some [some 3], [some 4], [some 5]⟩)] 10 =
      some ⟨10, 1, [some 1], [some 2], some [some 3], [some 4], [some 5]⟩ ∧
    [(10, smaEntryOf (⟨10, 1, [some 1], [some 2], some [some 3], [some 4], [some 5]⟩ : Series)),
     (-1, smaEntryOf ⟨-1, -1, [some 1], [some 2], some [some 3], [some 4], [some 5]⟩)] ≠
      ([] : List (Int × Series)) := by
  refine ⟨?_, by norm_num [propsLookup], by simp⟩
  norm_num [Counters.reset, Counters.stop, JsMapSeries.clear, computeTotals,
    totalsAt, totalsStep, propsLookup, propsSet, recordTick, foldSample,
    computeMovingAverages, List.range_succ, jsAdd, jsAddRead,
    List.mapM, List.mapM.loop, List.foldlM, bind, Except.bind, pure, Except.pure]

end Adstest
